import Mathlib

/-!
# Adapter selection of `devtools/utils/FormatVariadicDetail.h`

A shallow embedding of the compile-time dispatch of `polar::utils::internal`:
the capability probes `HasFormatProvider` / `HasStreamOperator`, the resolver
predicates `UsesFormatMember`, `UsesFormatProvider`, `UsesStreamOperator`,
`uses_missing_provider`, the adapter classes and the four `BuildFormatAdapter`
overloads.

Types are data (`CppType`), a translation unit is data (`Program`), template
instantiation is evaluation.  The run-time part (what an adapter holds and what
`format` writes) is modelled over a store of objects: a reference is a
location, an object member is a value.  A member function whose body is
ill-formed for its template argument yields no result (`none`).
-/

namespace polar.utils

/-! ## C++ types -/

/-- Reference category of a type: `U`, `U &` or `U &&`. -/
inductive RefKind
  | none
  | lvalue
  | rvalue
  deriving DecidableEq, Repr

/-- How a type is built around the type it names, outermost first: the named
type itself, an array of elements, a pointer to a (cv-qualified) pointee, or a
function type (then the name stands for its signature). -/
inductive Shape
  | object
  | array (extent : Nat) (element : Shape)
  | pointer (toConst toVolatile : Bool) (pointee : Shape)
  | function
  deriving DecidableEq, Repr

/-- A type: the named type `name`, the `shape` built around it, the top-level
cv-qualifiers (for an array, those of its elements) and the reference
category. -/
structure CppType where
  name : String
  isConst : Bool
  isVolatile : Bool
  ref : RefKind
  shape : Shape := Shape.object
  deriving DecidableEq, Repr

/-- Whether `std::decay` turns the shape into a pointer: arrays and functions. -/
def Shape.decays : Shape → Bool
  | Shape.array _ _ => true
  | Shape.function => true
  | _ => false

/-- The unqualified, non-reference type with the given name. -/
def CppType.plain (name : String) : CppType :=
  { name := name, isConst := false, isVolatile := false, ref := RefKind.none }

/-- The type `const U`: a reference type and a function type take no
qualifier and are left as they are. -/
def CppType.addConst (U : CppType) : CppType :=
  match U.ref, U.shape with
  | RefKind.none, Shape.function => U
  | RefKind.none, _ => { U with isConst := true }
  | _, _ => U

/-- The type `const U &`. -/
def CppType.constRef (U : CppType) : CppType :=
  { U.addConst with ref := RefKind.lvalue }

/-- The type `U &`: also for a reference type `U`, by reference collapsing. -/
def CppType.lvalueRef (U : CppType) : CppType :=
  { U with ref := RefKind.lvalue }

/-- The type `U &&`: by reference collapsing an lvalue reference type stays as
it is. -/
def CppType.rvalueRef (U : CppType) : CppType :=
  match U.ref with
  | RefKind.lvalue => U
  | _ => { U with ref := RefKind.rvalue }

/-- The type without its reference and without its top-level cv-qualifiers. -/
def CppType.unqualified (T : CppType) : CppType :=
  { T with isConst := false, isVolatile := false, ref := RefKind.none }

/-- Library trait `std::remove_reference<T>::type`. -/
def std.remove_reference (T : CppType) : CppType :=
  { T with ref := RefKind.none }

/-- Library trait `std::remove_cv<T>::type`: top-level qualifiers only, so a
reference type is left as it is. -/
def std.remove_cv (T : CppType) : CppType :=
  match T.ref with
  | RefKind.none => { T with isConst := false, isVolatile := false }
  | _ => T

/-- Library trait `std::decay<T>::type`: with `U = remove_reference<T>`, an
array `U` gives the pointer to its (cv-qualified) element, a function `U` the
pointer to it, and any other `U` gives `remove_cv<U>`. -/
def std.decay (T : CppType) : CppType :=
  match (std.remove_reference T).shape with
  | Shape.array _ element =>
    { name := T.name, isConst := false, isVolatile := false, ref := RefKind.none,
      shape := Shape.pointer T.isConst T.isVolatile element }
  | Shape.function =>
    { name := T.name, isConst := false, isVolatile := false, ref := RefKind.none,
      shape := Shape.pointer false false Shape.function }
  | _ => std.remove_cv (std.remove_reference T)

/-- Library trait `std::is_same<A, B>::value`. -/
def std.is_same (A B : CppType) : Bool :=
  decide (A = B)

/-- The type `void`. -/
def voidType : CppType := CppType.plain "void"

/-- The type `std::ostream`. -/
def ostreamType : CppType := CppType.plain "std::ostream"

/-- The type `std::string_view`. -/
def stringViewType : CppType := CppType.plain "std::string_view"

/-- The class `polar::utils::Error`, declared at line 26. -/
def Error : CppType := CppType.plain "polar::utils::Error"

/-- The class `polar::utils::internal::FormatAdapterImpl`, lines 30-36. -/
def FormatAdapterImpl : CppType :=
  CppType.plain "polar::utils::internal::FormatAdapterImpl"

/-! ## Translation units -/

/-- Text written to a `std::ostream` so far. -/
abbrev Sink := String

/-- A class declaration: its name, its direct base classes, whether it is
abstract (a pure virtual function without a final overrider), and whether an
object of it can be constructed from a non-const rvalue
(`std::is_move_constructible`) and from a const one
(`std::is_copy_constructible`). -/
structure ClassDecl where
  name : String
  bases : List String
  isAbstract : Bool := false
  moveConstructible : Bool := true
  copyConstructible : Bool := true
  deriving DecidableEq, Repr

/-- A function type: return type and parameter types. -/
structure FnSig where
  ret : CppType
  params : List CppType
  deriving DecidableEq, Repr

/-- A member function named `format` of a `FormatProvider` specialisation: how
it is declared (static or not, its function type, public or not), and what a
call writes given the item, the stream and the options text. -/
structure FormatFn (Val : Type) where
  isStatic : Bool
  sig : FnSig
  body : Val → Sink → String → Sink
  isPublic : Bool := true

/-- The body of a `FormatProvider<U>` class: its `format` member, if any. -/
structure ProviderDecl (Val : Type) where
  format : Option (FormatFn Val)

/-- The `operator<<` that overload resolution finds for `std::ostream & << U`:
its result type and what it writes. -/
structure StreamFn (Val : Type) where
  result : CppType
  body : Sink → Val → Sink

/-- What a translation unit including the header declares.
* `classes`: its classes.
* `specialisation D`: its specialisation of `FormatProvider` for `D`.
* `streamInsert D`: the operator overload resolution finds for
  `std::ostream & << const D &`, the operand the probe tests.
* `lvalueInsert M`: the operator overload resolution finds for
  `std::ostream & << M &`, an lvalue operand of type `M`, when `M` is not
  `const D` for a decayed `D`.
* `dynamicClass v`: the most derived class of the caller's object of value `v`.
* `classFormat C v`: what the final overrider of `format` in class `C` writes
  for an object of value `v`. -/
structure Program (Val : Type) where
  classes : List ClassDecl
  specialisation : CppType → Option (ProviderDecl Val)
  streamInsert : CppType → Option (StreamFn Val)
  lvalueInsert : CppType → Option (StreamFn Val)
  dynamicClass : Val → String
  classFormat : String → Val → Sink → String → Sink

/-- The virtual call `format(out, options)` on the caller's object of value
`v`: the final overrider of its most derived class runs. -/
def Program.memberFormat {Val : Type} (P : Program Val) (v : Val) (out : Sink)
    (options : String) : Sink :=
  P.classFormat (P.dynamicClass v) v out options

/-- The classes visible in the header before the traits: `std::ostream` and
`std::string_view` of the included library headers (lines 15-16), and the
abstract `FormatAdapterImpl` (line 35 is pure virtual), which has no base. -/
def headerClasses : List ClassDecl :=
  [{ name := FormatAdapterImpl.name, bases := [], isAbstract := true },
   { name := ostreamType.name, bases := [], moveConstructible := false,
     copyConstructible := false },
   { name := stringViewType.name, bases := [] }]

/-- All classes visible to the traits: the header's, then the program's. -/
def Program.allClasses {Val : Type} (P : Program Val) : List ClassDecl :=
  headerClasses ++ P.classes

/-- Whether the class named `derived` has the class named `base` among its
direct or indirect bases; `fuel` bounds the depth of the search. -/
def derivesFrom (classes : List ClassDecl) : Nat → String → String → Bool
  | 0, _, _ => false
  | fuel + 1, base, derived =>
    match classes.find? (fun c => c.name == derived) with
    | none => false
    | some c => c.bases.any (fun b => b == base || derivesFrom classes fuel base b)

/-- Library trait `std::is_base_of<Base, Derived>::value`: both are class types
(not references, arrays, pointers or functions), and `Derived` is `Base` or
derived from it; cv-qualifiers are ignored. -/
def std.is_base_of (classes : List ClassDecl) (Base Derived : CppType) : Bool :=
  decide (Base.ref = RefKind.none) && decide (Derived.ref = RefKind.none) &&
  decide (Base.shape = Shape.object) && decide (Derived.shape = Shape.object) &&
  classes.any (fun c => c.name == Base.name) &&
  classes.any (fun c => c.name == Derived.name) &&
  (Base.name == Derived.name ||
    derivesFrom classes classes.length Base.name Derived.name)

/-- The primary template `template <typename T, typename Enable = void>
struct FormatProvider {};` (lines 24-25): an empty class. -/
def FormatProvider.primary {Val : Type} : ProviderDecl Val :=
  { format := none }

/-- The class `FormatProvider<U>`: the program's specialisation for `U` when
there is one, the empty primary template otherwise. -/
def FormatProvider {Val : Type} (P : Program Val) (U : CppType) : ProviderDecl Val :=
  match P.specialisation U with
  | some d => d
  | none => FormatProvider.primary

/-! ## Capability probes (lines 72-109) -/

/-- The return type of a `test` overload: `char` or `double`. -/
inductive TestResult
  | char
  | double
  deriving DecidableEq, Repr

/-- The operator `sizeof` on the two return types of `test`. -/
def sizeof : TestResult → Nat
  | TestResult.char => 1
  | TestResult.double => 8

/-- Modelled from the spec: `polar::utils::SameType` is declared in
`StlExtras.h`, which is not among the sources.  `SameType<Sig, &U::format>`
names a type exactly when `&U::format` is a constant of the function pointer
type `Sig`: `U` has a static member function `format` of exactly that
signature ("exact signature match is required"). -/
def SameType {Val : Type} (sig : FnSig) (member : Option (FormatFn Val)) : Bool :=
  match member with
  | none => false
  | some f => f.isStatic && decide (f.sig = sig)

/-- The alias `HasFormatProvider<T>::Decayed`. -/
def HasFormatProvider.Decayed (T : CppType) : CppType :=
  std.decay T

/-- The alias `HasFormatProvider<T>::SignatureFormat`:
`void (*)(const Decayed &, std::ostream &, std::string_view)`. -/
def HasFormatProvider.SignatureFormat (T : CppType) : FnSig :=
  { ret := voidType,
    params := [(HasFormatProvider.Decayed T).constRef, ostreamType.lvalueRef,
      stringViewType] }

/-- Whether the expression `&U::format` may name the member from outside the
class `U`: access is checked where the expression is written. -/
def accessible {Val : Type} (member : Option (FormatFn Val)) : Bool :=
  match member with
  | none => true
  | some f => f.isPublic

/-- Overload resolution of `HasFormatProvider<T>::test<U>(nullptr)`: the first
overload when its parameter type `SameType<SignatureFormat, &U::format> *` can
be formed (the member is accessible and is a constant of that type), the
variadic one otherwise. -/
def HasFormatProvider.test {Val : Type} (T : CppType) (U : ProviderDecl Val) : TestResult :=
  if accessible U.format && SameType (HasFormatProvider.SignatureFormat T) U.format then
    TestResult.char
  else TestResult.double

/-- The constant `HasFormatProvider<T>::value`. -/
def HasFormatProvider {Val : Type} (P : Program Val) (T : CppType) : Bool :=
  sizeof (HasFormatProvider.test T (FormatProvider P (HasFormatProvider.Decayed T))) == 1

/-- The alias `HasStreamOperator<T>::ConstRefT`. -/
def HasStreamOperator.ConstRefT (T : CppType) : CppType :=
  (std.decay T).constRef

/-- Overload resolution of `HasStreamOperator<T>::test<U>(nullptr)` for
`U = const D &`: the first overload when `std::ostream & << U` resolves (the
program's `streamInsert D`) and its type is `std::ostream &`, the variadic one
otherwise. -/
def HasStreamOperator.test {Val : Type} (P : Program Val) (U : CppType) : TestResult :=
  match P.streamInsert (std.decay U) with
  | some op => if std.is_same op.result ostreamType.lvalueRef then TestResult.char
               else TestResult.double
  | none => TestResult.double

/-- The constant `HasStreamOperator<T>::value`. -/
def HasStreamOperator {Val : Type} (P : Program Val) (T : CppType) : Bool :=
  sizeof (HasStreamOperator.test P (HasStreamOperator.ConstRefT T)) == 1

/-! ## Resolver predicates (lines 111-150) -/

/-- The constant `UsesFormatMember<T>::value`. -/
def UsesFormatMember {Val : Type} (P : Program Val) (T : CppType) : Bool :=
  std.is_base_of P.allClasses FormatAdapterImpl (std.remove_reference T)

/-- The constant `UsesFormatProvider<T>::value`. -/
def UsesFormatProvider {Val : Type} (P : Program Val) (T : CppType) : Bool :=
  !UsesFormatMember P T && HasFormatProvider P T

/-- The constant `UsesStreamOperator<T>::value`. -/
def UsesStreamOperator {Val : Type} (P : Program Val) (T : CppType) : Bool :=
  !UsesFormatMember P T && !UsesFormatProvider P T && HasStreamOperator P T

/-- The constant `uses_missing_provider<T>::value`. -/
def uses_missing_provider {Val : Type} (P : Program Val) (T : CppType) : Bool :=
  !UsesFormatMember P T && !UsesFormatProvider P T && !UsesStreamOperator P T

/-! ## Adapter classes (lines 38-70) -/

/-- Objects of the caller, by location. -/
abbrev Store (Val : Type) := Nat → Val

/-- What a variable declared with type `T` holds: an object of its own when `T`
is not a reference type, the location of somebody else's object when it is. -/
inductive Slot (Val : Type)
  | object (v : Val)
  | reference (l : Nat)
  deriving DecidableEq, Repr

/-- The value a slot denotes in a given store. -/
def Slot.read {Val : Type} (σ : Store Val) : Slot Val → Val
  | Slot.object v => v
  | Slot.reference l => σ l

/-- Initialisation of a variable of type `T` from `std::forward<T>(item)`,
where `item` of type `T &&` refers to the object at location `item`: a
non-reference `T` is constructed from the object (copy or move, the new object
has its value), a reference `T` is bound to the object itself. -/
def forwardInit {Val : Type} (T : CppType) (σ : Store Val) (item : Nat) : Slot Val :=
  match T.ref with
  | RefKind.none => Slot.object (σ item)
  | RefKind.lvalue => Slot.reference item
  | RefKind.rvalue => Slot.reference item

/-- The declaration of the class a type names, when it names one. -/
def classOf (classes : List ClassDecl) (T : CppType) : Option ClassDecl :=
  match T.shape with
  | Shape.object => classes.find? (fun c => c.name == T.name)
  | _ => none

/-- Whether a variable of type `T` can be initialised from `std::forward<T>(item)`
(a member `T m_item`, lines 41-46 and 57-62, or the returned `T`, line 156).
A reference binds.  An object is constructed from an rvalue of its own type:
never an array or a function; a class object only when the class is not
abstract, the rvalue is not volatile, and the class is constructible from a
const rvalue (const `T`) or a non-const one. -/
def forwardConstructible {Val : Type} (P : Program Val) (T : CppType) : Bool :=
  match T.ref with
  | RefKind.lvalue => true
  | RefKind.rvalue => true
  | RefKind.none =>
    match T.shape with
    | Shape.array _ _ => false
    | Shape.function => false
    | Shape.pointer _ _ _ => true
    | Shape.object =>
      match classOf P.allClasses T with
      | none => true
      | some c =>
        !c.isAbstract && !T.isVolatile &&
          (if T.isConst then c.copyConstructible else c.moveConstructible)

/-- Whether the cv-qualifiers of `param` include those of `arg`. -/
def cvCovers (param arg : CppType) : Bool :=
  (param.isConst || !arg.isConst) && (param.isVolatile || !arg.isVolatile)

/-- Whether an object of the unqualified type of `arg` can be copy-initialised
from an lvalue of type `arg`: not an array or a function; a class object only
when the class is not abstract, is copy constructible and the lvalue is not
volatile. -/
def copyable (classes : List ClassDecl) (arg : CppType) : Bool :=
  match arg.shape with
  | Shape.array _ _ => false
  | Shape.function => false
  | Shape.pointer _ _ _ => true
  | Shape.object =>
    match classOf classes arg with
    | none => true
    | some c => !c.isAbstract && !arg.isVolatile && c.copyConstructible

/-- Whether a function parameter of type `param` can be initialised from an
lvalue argument of type `arg`.  Same type up to cv-qualifiers: an lvalue
reference binds when its qualifiers include the argument's, an rvalue reference
binds only a function, an object parameter is copied.  Otherwise only the
array-to-pointer and function-to-pointer conversions are considered: the
pointer is a temporary, which initialises an object, an rvalue reference or a
`const` (not `volatile`) lvalue reference of exactly that pointer type.
Conversions to other types are not represented. -/
def acceptsLvalue (classes : List ClassDecl) (param arg : CppType) : Bool :=
  if (std.remove_reference arg).unqualified = param.unqualified then
    match param.ref with
    | RefKind.lvalue => cvCovers param arg
    | RefKind.rvalue => decide (arg.shape = Shape.function)
    | RefKind.none => copyable classes arg
  else
    arg.shape.decays && decide (std.decay arg = param.unqualified) &&
      (match param.ref with
       | RefKind.lvalue => param.isConst && !param.isVolatile
       | _ => true)

/-- An object of class `ProviderFormatAdapter<T>`: the member `T m_item`. -/
structure ProviderFormatAdapter (Val : Type) where
  T : CppType
  m_item : Slot Val
  deriving DecidableEq, Repr

/-- The constructor `ProviderFormatAdapter(T &&item) : m_item(std::forward<T>(item))`. -/
def ProviderFormatAdapter.construct {Val : Type} (T : CppType) (σ : Store Val) (item : Nat) :
    ProviderFormatAdapter Val :=
  { T := T, m_item := forwardInit T σ item }

/-- Whether the call at line 50,
`FormatProvider<typename std::decay<T>::type>::format(m_item, out, options)`,
is well-formed: `FormatProvider<decay<T>>` has a public static `format` of
three parameters that accept the lvalue `m_item` of type `T`, the lvalue `out`
of type `std::ostream` and the lvalue `options` of type `std::string_view`. -/
def ProviderFormatAdapter.callable {Val : Type} (P : Program Val) (T : CppType) : Bool :=
  match (FormatProvider P (std.decay T)).format with
  | none => false
  | some f =>
    f.isStatic && f.isPublic &&
      (match f.sig.params with
       | [p1, p2, p3] =>
         acceptsLvalue P.allClasses p1 (std.remove_reference T) &&
         acceptsLvalue P.allClasses p2 ostreamType &&
         acceptsLvalue P.allClasses p3 stringViewType
       | _ => false)

/-- Whether the class `ProviderFormatAdapter<T>` is well-formed: its member
can be initialised by its constructor (lines 41-46) and the call in its
virtual `format` is well-formed (line 50). -/
def ProviderFormatAdapter.wellFormed {Val : Type} (P : Program Val) (T : CppType) : Bool :=
  forwardConstructible P T && ProviderFormatAdapter.callable P T

/-- The member `ProviderFormatAdapter<T>::format`: the call
`FormatProvider<typename std::decay<T>::type>::format(m_item, out, options)`.
The result is `none` when the class is ill-formed for `T`. -/
def ProviderFormatAdapter.format {Val : Type} (P : Program Val) (a : ProviderFormatAdapter Val)
    (σ : Store Val) (out : Sink) (options : String) : Option Sink :=
  if ProviderFormatAdapter.wellFormed P a.T then
    match (FormatProvider P (std.decay a.T)).format with
    | some f => some (f.body (a.m_item.read σ) out options)
    | none => none
  else none

/-- An object of class `StreamOperatorFormatAdapter<T>`: the member `T m_item`. -/
structure StreamOperatorFormatAdapter (Val : Type) where
  T : CppType
  m_item : Slot Val
  deriving DecidableEq, Repr

/-- The constructor `StreamOperatorFormatAdapter(T &&item) : m_item(std::forward<T>(item))`. -/
def StreamOperatorFormatAdapter.construct {Val : Type} (T : CppType) (σ : Store Val)
    (item : Nat) : StreamOperatorFormatAdapter Val :=
  { T := T, m_item := forwardInit T σ item }

/-- The operator overload resolution finds for `out << v`, where `v` is an
lvalue of the non-reference type `M`: when `M` is `const D` for a decayed `D`
this is the operand the probe tests, otherwise the program says what is found
for this operand. -/
def insertFor {Val : Type} (P : Program Val) (M : CppType) : Option (StreamFn Val) :=
  if M = (std.decay M).addConst then P.streamInsert (std.decay M) else P.lvalueInsert M

/-- The expression `out << v` for an lvalue `v` of the non-reference type `M`:
`none` when no operator is found. -/
def streamOut {Val : Type} (P : Program Val) (M : CppType) (out : Sink) (v : Val) : Option Sink :=
  match insertFor P M with
  | some op => some (op.body out v)
  | none => none

/-- Whether the class `StreamOperatorFormatAdapter<T>` is well-formed: its
member can be initialised by its constructor (lines 57-62) and `out << m_item`
resolves for the lvalue `m_item` of type `T` (line 66). -/
def StreamOperatorFormatAdapter.wellFormed {Val : Type} (P : Program Val) (T : CppType) : Bool :=
  forwardConstructible P T && (insertFor P (std.remove_reference T)).isSome

/-- The member `StreamOperatorFormatAdapter<T>::format`, whose second parameter
is unnamed: the statement `out << m_item`.  The result is `none` when the class
is ill-formed for `T`. -/
def StreamOperatorFormatAdapter.format {Val : Type} (P : Program Val)
    (a : StreamOperatorFormatAdapter Val) (σ : Store Val) (out : Sink) (_ : String) :
    Option Sink :=
  if forwardConstructible P a.T then
    streamOut P (std.remove_reference a.T) out (a.m_item.read σ)
  else none

/-! ## The factory (lines 152-187) -/

/-- The four function templates named `BuildFormatAdapter`, in source order. -/
inductive Overload
  | formatMember
  | formatProvider
  | streamOperator
  | missingProvider
  deriving DecidableEq, Repr

/-- A return type of `BuildFormatAdapter`: the second argument of `enable_if`. -/
inductive ReturnType
  | self (T : CppType)
  | providerAdapter (T : CppType)
  | streamOperatorAdapter (T : CppType)
  | missingAdapter (T : CppType)
  deriving DecidableEq, Repr

/-- The condition of the `std::enable_if` in each overload's return type. -/
def Overload.enabled {Val : Type} (P : Program Val) (T : CppType) : Overload → Bool
  | Overload.formatMember => UsesFormatMember P T
  | Overload.formatProvider => UsesFormatProvider P T
  | Overload.streamOperator => UsesStreamOperator P T
  | Overload.missingProvider => uses_missing_provider P T

/-- The return type each overload declares for `T`. -/
def Overload.returnType (T : CppType) : Overload → ReturnType
  | Overload.formatMember => ReturnType.self T
  | Overload.formatProvider => ReturnType.providerAdapter T
  | Overload.streamOperator => ReturnType.streamOperatorAdapter T
  | Overload.missingProvider => ReturnType.missingAdapter T

/-- Whether a return type is a complete type: `MissingFormatAdapter` is only
declared (line 70, `template <typename T> class MissingFormatAdapter;`), the
two adapter class templates are defined, and `T` is the caller's. -/
def ReturnType.isComplete : ReturnType → Bool
  | ReturnType.self _ => true
  | ReturnType.providerAdapter _ => true
  | ReturnType.streamOperatorAdapter _ => true
  | ReturnType.missingAdapter _ => false

/-- Why a call `BuildFormatAdapter(item)` is rejected by the compiler. -/
inductive BuildError
  | noMatchingFunction
  | ambiguousCall (candidates : List Overload)
  | incompleteType (type : ReturnType)
  | staticAssert (message : String)
  | cannotReturn (type : ReturnType)
  deriving DecidableEq, Repr

/-- What a call `BuildFormatAdapter(item)` returns: a `T`, a
`ProviderFormatAdapter<T>` or a `StreamOperatorFormatAdapter<T>`. -/
inductive Adapter (Val : Type)
  | self (T : CppType) (item : Slot Val)
  | provider (a : ProviderFormatAdapter Val)
  | streamOperator (a : StreamOperatorFormatAdapter Val)
  deriving DecidableEq, Repr

/-- The static type of a returned adapter. -/
def Adapter.type {Val : Type} : Adapter Val → ReturnType
  | Adapter.self T _ => ReturnType.self T
  | Adapter.provider a => ReturnType.providerAdapter a.T
  | Adapter.streamOperator a => ReturnType.streamOperatorAdapter a.T

/-- The call `format(out, options)` on a returned adapter.  For a returned
`T`: `FormatAdapterImpl::format` (line 35) is a non-const, non-volatile member,
so there is no call on a cv-qualified `T`; on a reference the virtual call
reaches the caller's object and its most derived class, on a returned object,
which is a complete `T`, the final overrider of class `T` runs.  Otherwise the
adapter's member runs. -/
def Adapter.format {Val : Type} (P : Program Val) (a : Adapter Val) (σ : Store Val)
    (out : Sink) (options : String) : Option Sink :=
  match a with
  | Adapter.self T item =>
    if T.isConst || T.isVolatile then none
    else
      match item with
      | Slot.reference l => some (P.memberFormat (σ l) out options)
      | Slot.object v => some (P.classFormat T.name v out options)
  | Adapter.provider a => a.format P σ out options
  | Adapter.streamOperator a => a.format P σ out options

/-- The overloads whose `enable_if` condition holds for `T`: the candidates of
the call.  All four take the same parameter `T &&`. -/
def BuildFormatAdapter.candidates {Val : Type} (P : Program Val) (T : CppType) : List Overload :=
  [Overload.formatMember, Overload.formatProvider, Overload.streamOperator,
    Overload.missingProvider].filter (Overload.enabled P T)

/-- Overload resolution of the call: one candidate is selected, none is an
error, and several are ambiguous since their parameter lists are identical. -/
def BuildFormatAdapter.select {Val : Type} (P : Program Val) (T : CppType) :
    Except BuildError Overload :=
  match BuildFormatAdapter.candidates P T with
  | [] => Except.error BuildError.noMatchingFunction
  | [o] => Except.ok o
  | os => Except.error (BuildError.ambiguousCall os)

/-- The text of the `static_assert` at lines 175-177. -/
def errorByValueMessage : String :=
  "polarphp::Error-by-value must be wrapped in fmt_consume() for formatv"

/-- The body of the selected overload, instantiated for `T` and run on the
object `item` refers to.  The first overload returns a `T` initialised from
`std::forward<T>(item)`, which must be possible for `T`: a reference to the
object, or a new complete `T` (of an object of a derived class, a copy of its
`T` part, so that `format` on it is that of class `T`).  The second and third
overloads construct the adapter; whether the adapter class is well-formed for
`T` is `ProviderFormatAdapter.wellFormed` and
`StreamOperatorFormatAdapter.wellFormed`, and an ill-formed class has no
`format`. -/
def Overload.body {Val : Type} (P : Program Val) (T : CppType) (σ : Store Val) (item : Nat) :
    Overload → Except BuildError (Adapter Val)
  | Overload.formatMember =>
    if forwardConstructible P T then Except.ok (Adapter.self T (forwardInit T σ item))
    else Except.error (BuildError.cannotReturn (ReturnType.self T))
  | Overload.formatProvider =>
    Except.ok (Adapter.provider (ProviderFormatAdapter.construct T σ item))
  | Overload.streamOperator =>
    if !std.is_same Error (std.remove_cv T) then
      Except.ok (Adapter.streamOperator (StreamOperatorFormatAdapter.construct T σ item))
    else Except.error (BuildError.staticAssert errorByValueMessage)
  | Overload.missingProvider => Except.error (BuildError.incompleteType (ReturnType.missingAdapter T))

/-- The call `BuildFormatAdapter(item)` with template argument `T`, where
`item` is the location of the caller's object in store `σ`: the selected
overload must return a complete type, then its body runs. -/
def BuildFormatAdapter {Val : Type} (P : Program Val) (T : CppType) (σ : Store Val)
    (item : Nat) : Except BuildError (Adapter Val) :=
  match BuildFormatAdapter.select P T with
  | Except.error e => Except.error e
  | Except.ok o =>
    if (o.returnType T).isComplete then o.body P T σ item
    else Except.error (BuildError.incompleteType (o.returnType T))

/-! ## The resolver as the specification words it -/

/-- The four classifications of the specification. -/
inductive Classification
  | AlreadyAdapter
  | CustomFormatter
  | StreamOperator
  | MissingCapability
  deriving DecidableEq, Repr

/-- The rule of the specification's Priority Resolver, in its words: the three
facts are examined in order and the first match wins. -/
def specClassification (hasAdapterCapability hasCustomFormatter hasGenericStreamSupport : Bool) :
    Classification :=
  if hasAdapterCapability then Classification.AlreadyAdapter
  else if hasCustomFormatter then Classification.CustomFormatter
  else if hasGenericStreamSupport then Classification.StreamOperator
  else Classification.MissingCapability

/-! ## An example translation unit -/

/-- Values of the example: a `Point`, an `int`, a `Banner` (an adapter class),
an `Error`, and an object of a class without any formatting support. -/
inductive DemoVal
  | point (x y : Nat)
  | number (n : Nat)
  | banner (text : String)
  | error (message : String)
  | blob
  deriving DecidableEq, Repr

/-- The struct `Point`. -/
def demoPoint : CppType := CppType.plain "Point"

/-- The type `int`. -/
def demoInt : CppType := CppType.plain "int"

/-- The class `Banner : public FormatAdapterImpl`. -/
def demoBanner : CppType := CppType.plain "Banner"

/-- The struct `Celsius`, whose provider takes its item by value. -/
def demoCelsius : CppType := CppType.plain "Celsius"

/-- The struct `Money`: a provider and a stream operator, not an adapter. -/
def demoMoney : CppType := CppType.plain "Money"

/-- The class `Blob`: no provider, no stream operator, not an adapter. -/
def demoBlob : CppType := CppType.plain "Blob"

/-- What the example's functions write for a value. -/
def demoText : DemoVal → String
  | DemoVal.point x y => "(" ++ toString x ++ "," ++ toString y ++ ")"
  | DemoVal.number n => toString n
  | DemoVal.banner t => t
  | DemoVal.error m => m
  | DemoVal.blob => ""

/-- A static `format` of the exact signature for `U` that writes the value's
text and ignores the options. -/
def demoExactFormat (U : CppType) : FormatFn DemoVal :=
  { isStatic := true
    sig := HasFormatProvider.SignatureFormat U
    body := fun v out _ => out ++ demoText v }

/-- A static `format(Celsius, std::ostream &, std::string_view)`: the item is
taken by value, not by `const &`. -/
def demoByValueFormat : FormatFn DemoVal :=
  { isStatic := true
    sig := { ret := voidType, params := [demoCelsius, ostreamType.lvalueRef, stringViewType] }
    body := fun v out _ => out ++ demoText v }

/-- An `operator<<` returning `std::ostream &` that writes the value's text. -/
def demoInsert : StreamFn DemoVal :=
  { result := ostreamType.lvalueRef
    body := fun out v => out ++ demoText v }

/-- The most derived class of an example value. -/
def demoClass : DemoVal → String
  | DemoVal.point _ _ => "Point"
  | DemoVal.number _ => "int"
  | DemoVal.banner _ => "Banner"
  | DemoVal.error _ => Error.name
  | DemoVal.blob => "Blob"

/-- What the examples find for an lvalue operand of type `M` that is not
`const D`: their class operators take `const U &`, so a volatile class operand
finds nothing and any other operand finds the operator of its unqualified
type; the stream's own operator for `int` takes its operand by value and
serves a volatile `int` too. -/
def demoLvalueInsert (constInsert : CppType → Option (StreamFn DemoVal)) (M : CppType) :
    Option (StreamFn DemoVal) :=
  if M.isVolatile ∧ M.unqualified ≠ demoInt then none else constInsert M.unqualified

/-- The stream insertion operators of the first example, by decayed operand
type: `int`, `Banner`, `Money` and `Error` have one. -/
def demoProgramInsert (U : CppType) : Option (StreamFn DemoVal) :=
  if U = demoInt ∨ U = demoBanner ∨ U = demoMoney ∨ U = Error then some demoInsert
  else none

/-- The example translation unit: `Point`, `Banner` and `Money` have a provider
with the exact signature, `Celsius` one with another signature; `int`,
`Banner`, `Money` and `Error` have a stream insertion operator; `Banner` derives from
`FormatAdapterImpl` and its `format` writes its text in brackets. -/
def demoProgram : Program DemoVal :=
  { classes := [{ name := "Point", bases := [] },
                { name := "Banner", bases := [FormatAdapterImpl.name] },
                { name := "Celsius", bases := [] },
                { name := "Money", bases := [] },
                { name := Error.name, bases := [] },
                { name := "Blob", bases := [] }]
    specialisation := fun U =>
      if U = demoPoint then some { format := some (demoExactFormat demoPoint) }
      else if U = demoBanner then some { format := some (demoExactFormat demoBanner) }
      else if U = demoMoney then some { format := some (demoExactFormat demoMoney) }
      else if U = demoCelsius then some { format := some demoByValueFormat }
      else none
    streamInsert := demoProgramInsert
    lvalueInsert := demoLvalueInsert demoProgramInsert
    dynamicClass := demoClass
    classFormat := fun _ v out _ => out ++ "[" ++ demoText v ++ "]" }

/-- The caller's objects of the example: a `Point{1, 2}` at 0, the `int` 42
at 1, a `Banner` at 2, an `Error` at 3, a `Money` of 7 at 4, a `Blob`
elsewhere. -/
def demoStore : Store DemoVal := fun l =>
  match l with
  | 0 => DemoVal.point 1 2
  | 1 => DemoVal.number 42
  | 2 => DemoVal.banner "hi"
  | 3 => DemoVal.error "boom"
  | 4 => DemoVal.number 7
  | _ => DemoVal.blob

/-- The store after the caller assigns `v` to its object at location `l`. -/
def Store.assign {Val : Type} (σ : Store Val) (l : Nat) (v : Val) : Store Val :=
  fun k => if k = l then v else σ k

/-! ## Class derivation as a relation -/

/-- The relation "the class named `derived` is derived from the class named
`base`": `base` is a direct base of `derived`, or a direct base of `derived`
is itself derived from `base`.  The declaration of a class is the first one of
its name in the class list. -/
inductive DerivedFrom (classes : List ClassDecl) (base : String) : String → Prop
  | direct {derived : String} (c : ClassDecl) :
      classes.find? (fun c => c.name == derived) = some c → base ∈ c.bases →
      DerivedFrom classes base derived
  | indirect {derived : String} (c : ClassDecl) (b : String) :
      classes.find? (fun c => c.name == derived) = some c → b ∈ c.bases →
      DerivedFrom classes base b → DerivedFrom classes base derived

/-- A chain of direct-base steps from `derived` up to `base`, with the list of
the classes it leaves from, `derived` first. -/
inductive BasePath (classes : List ClassDecl) (base : String) : String → List String → Prop
  | direct {derived : String} (c : ClassDecl) :
      classes.find? (fun c => c.name == derived) = some c → base ∈ c.bases →
      BasePath classes base derived [derived]
  | step {derived : String} {l : List String} (c : ClassDecl) (b : String) :
      classes.find? (fun c => c.name == derived) = some c → b ∈ c.bases →
      BasePath classes base b l → BasePath classes base derived (derived :: l)

/-! ## A second example translation unit -/

/-- The class `Headline : public Banner`. -/
def demoHeadline : CppType := CppType.plain "Headline"

/-- The class `Ticker : public Headline`. -/
def demoTicker : CppType := CppType.plain "Ticker"

/-- The struct `Quiet`, whose `operator<<` returns `void`. -/
def demoQuiet : CppType := CppType.plain "Quiet"

/-- An `operator<<` that writes the value's text and returns `void`. -/
def demoVoidInsert : StreamFn DemoVal :=
  { result := voidType
    body := fun out v => out ++ demoText v }

/-- The stream insertion operators of the second example, by decayed operand
type: `int` and `Error` have one returning `std::ostream &`, `Quiet` one
returning `void`. -/
def demoSecondInsert (U : CppType) : Option (StreamFn DemoVal) :=
  if U = demoInt ∨ U = Error then some demoInsert
  else if U = demoQuiet then some demoVoidInsert
  else none

/-- The second example: a chain `Ticker : Headline : Banner :
FormatAdapterImpl`; `Point` with a provider of the exact signature; `int`
with a stream operator; `Quiet` with a stream operator returning `void`;
`Error` with both a provider of the exact signature and a stream operator. -/
def demoSecond : Program DemoVal :=
  { classes := [{ name := "Ticker", bases := ["Headline"] },
                { name := "Headline", bases := ["Banner"] },
                { name := "Banner", bases := [FormatAdapterImpl.name] },
                { name := "Point", bases := [] },
                { name := "Quiet", bases := [] },
                { name := Error.name, bases := [] }]
    specialisation := fun U =>
      if U = demoPoint then some { format := some (demoExactFormat demoPoint) }
      else if U = Error then some { format := some (demoExactFormat Error) }
      else none
    streamInsert := demoSecondInsert
    lvalueInsert := demoLvalueInsert demoSecondInsert
    dynamicClass := demoClass
    classFormat := fun _ v out _ => out ++ "[" ++ demoText v ++ "]" }

/-! ## A third example translation unit -/

/-- Values of the third example: the most derived class of the object and the
text it carries. -/
structure DemoObj where
  cls : String
  text : String
  deriving DecidableEq, Repr

/-- The struct `Vault`, whose provider declares `format` private. -/
def demoVault : CppType := CppType.plain "Vault"

/-- The class `Tag`, with two stream operators: one for `const Tag &`, one for
`Tag &`. -/
def demoTag : CppType := CppType.plain "Tag"

/-- The struct `Seal`, which can be neither copied nor moved; it has a
provider. -/
def demoSeal : CppType := CppType.plain "Seal"

/-- The struct `Lock`, which can be neither copied nor moved; it has a stream
operator. -/
def demoLock : CppType := CppType.plain "Lock"

/-- The type `char[6]`. -/
def demoCharArray : CppType :=
  { name := "char", isConst := false, isVolatile := false, ref := RefKind.none,
    shape := Shape.array 6 Shape.object }

/-- The type `char *`. -/
def demoCharPtr : CppType :=
  { name := "char", isConst := false, isVolatile := false, ref := RefKind.none,
    shape := Shape.pointer false false Shape.object }

/-- The type `const char *`. -/
def demoConstCharPtr : CppType :=
  { name := "char", isConst := false, isVolatile := false, ref := RefKind.none,
    shape := Shape.pointer true false Shape.object }

/-- The type `volatile Tag`. -/
def demoVolatileTag : CppType := { demoTag with isVolatile := true }

/-- A static `format` of the exact signature for `U`, public or private, that
writes the object's text and ignores the options. -/
def demoObjFormat (U : CppType) (isPublic : Bool) : FormatFn DemoObj :=
  { isStatic := true
    sig := HasFormatProvider.SignatureFormat U
    body := fun v out _ => out ++ v.text
    isPublic := isPublic }

/-- The operator `std::ostream &operator<<(std::ostream &, const U &)` of the
third example: it writes the object's text. -/
def demoConstInsert : StreamFn DemoObj :=
  { result := ostreamType.lvalueRef
    body := fun out v => out ++ v.text }

/-- The operator `std::ostream &operator<<(std::ostream &, Tag &)` of the
third example: it writes "mutable:" before the object's text. -/
def demoMutableInsert : StreamFn DemoObj :=
  { result := ostreamType.lvalueRef
    body := fun out v => out ++ "mutable:" ++ v.text }

/-- The third example: `Banner : FormatAdapterImpl` and `Headline : Banner`
override `format`, the abstract `Draft : FormatAdapterImpl` does not; `Seal`
and `Lock` have deleted copy and move constructors; `Point` and `Seal` have a
provider of the exact signature, `Vault` the same but private, and
`const char *` has one while `char *` has none; `Tag`, `Lock`, `char *` and
`const char *` have a stream operator for a const operand; a non-const `Tag`
lvalue finds the `Tag &` operator, a non-const `Lock` lvalue the operator for
`const Lock &`, and a volatile operand finds none. -/
def demoThird : Program DemoObj :=
  { classes := [{ name := "Banner", bases := [FormatAdapterImpl.name] },
                { name := "Headline", bases := ["Banner"] },
                { name := "Draft", bases := [FormatAdapterImpl.name], isAbstract := true },
                { name := "Point", bases := [] },
                { name := "Vault", bases := [] },
                { name := "Tag", bases := [] },
                { name := "Seal", bases := [], moveConstructible := false,
                  copyConstructible := false },
                { name := "Lock", bases := [], moveConstructible := false,
                  copyConstructible := false }]
    specialisation := fun U =>
      if U = demoPoint then some { format := some (demoObjFormat demoPoint true) }
      else if U = demoSeal then some { format := some (demoObjFormat demoSeal true) }
      else if U = demoVault then some { format := some (demoObjFormat demoVault false) }
      else if U = demoConstCharPtr then
        some { format := some (demoObjFormat demoConstCharPtr true) }
      else none
    streamInsert := fun U =>
      if U = demoTag ∨ U = demoLock ∨ U = demoCharPtr ∨ U = demoConstCharPtr then
        some demoConstInsert
      else none
    lvalueInsert := fun M =>
      if M = demoTag then some demoMutableInsert
      else if M = demoLock then some demoConstInsert
      else none
    dynamicClass := fun v => v.cls
    classFormat := fun c v out _ => out ++ c ++ ":" ++ v.text }

/-- The caller's objects of the third example: a `Headline` at 0, a `Point` at
1, a `Tag` at 2, a `Banner` at 3, a `Vault` elsewhere. -/
def demoObjects : Store DemoObj := fun l =>
  match l with
  | 0 => { cls := "Headline", text := "news" }
  | 1 => { cls := "Point", text := "(1,2)" }
  | 2 => { cls := "Tag", text := "t" }
  | 3 => { cls := "Banner", text := "hi" }
  | _ => { cls := "Vault", text := "secret" }

/-! ## Theorems -/

/-- The three resolver predicates below `UsesFormatMember` as functions of the
three facts: the nested negations of the source collapse to the first-match
rule. -/
theorem resolver_eq {Val : Type} (P : Program Val) (T : CppType) :
    UsesFormatProvider P T = (!UsesFormatMember P T && HasFormatProvider P T) ∧
    UsesStreamOperator P T =
      (!UsesFormatMember P T && !HasFormatProvider P T && HasStreamOperator P T) ∧
    uses_missing_provider P T =
      (!UsesFormatMember P T && !HasFormatProvider P T && !HasStreamOperator P T) := by
  unfold uses_missing_provider UsesStreamOperator UsesFormatProvider
  cases UsesFormatMember P T <;> cases HasFormatProvider P T <;>
    cases HasStreamOperator P T <;> simp

/-- C1: for every program and type, with a = UsesFormatMember, p =
HasFormatProvider, s = HasStreamOperator, the four resolver predicates are
a, (not a and p), (not a and not p and s), (not a and not p and not s), and
each is true exactly when the specification's first-match rule (adapter, custom
formatter, stream, missing) yields its classification. -/
theorem C1_resolver_first_match {Val : Type} (P : Program Val) (T : CppType) :
    (UsesFormatProvider P T = (!UsesFormatMember P T && HasFormatProvider P T) ∧
     UsesStreamOperator P T =
       (!UsesFormatMember P T && !HasFormatProvider P T && HasStreamOperator P T) ∧
     uses_missing_provider P T =
       (!UsesFormatMember P T && !HasFormatProvider P T && !HasStreamOperator P T)) ∧
    (UsesFormatMember P T = decide (specClassification (UsesFormatMember P T)
        (HasFormatProvider P T) (HasStreamOperator P T) = Classification.AlreadyAdapter) ∧
     UsesFormatProvider P T = decide (specClassification (UsesFormatMember P T)
        (HasFormatProvider P T) (HasStreamOperator P T) = Classification.CustomFormatter) ∧
     UsesStreamOperator P T = decide (specClassification (UsesFormatMember P T)
        (HasFormatProvider P T) (HasStreamOperator P T) = Classification.StreamOperator) ∧
     uses_missing_provider P T = decide (specClassification (UsesFormatMember P T)
        (HasFormatProvider P T) (HasStreamOperator P T) = Classification.MissingCapability)) := by
  obtain ⟨h1, h2, h3⟩ := resolver_eq P T
  rw [h1, h2, h3]
  cases UsesFormatMember P T <;> cases HasFormatProvider P T <;>
    cases HasStreamOperator P T <;> simp [specClassification]

/-- The candidates of the call, by the three facts. -/
theorem candidates_eq {Val : Type} (P : Program Val) (T : CppType) :
    BuildFormatAdapter.candidates P T =
      if UsesFormatMember P T then [Overload.formatMember]
      else if HasFormatProvider P T then [Overload.formatProvider]
      else if HasStreamOperator P T then [Overload.streamOperator]
      else [Overload.missingProvider] := by
  obtain ⟨h1, h2, h3⟩ := resolver_eq P T
  simp only [BuildFormatAdapter.candidates, List.filter, Overload.enabled, h1, h2, h3]
  cases UsesFormatMember P T <;> cases HasFormatProvider P T <;>
    cases HasStreamOperator P T <;> rfl

/-- Overload resolution of the call, by the three facts. -/
theorem select_eq {Val : Type} (P : Program Val) (T : CppType) :
    BuildFormatAdapter.select P T =
      Except.ok (if UsesFormatMember P T then Overload.formatMember
        else if HasFormatProvider P T then Overload.formatProvider
        else if HasStreamOperator P T then Overload.streamOperator
        else Overload.missingProvider) := by
  simp only [BuildFormatAdapter.select, candidates_eq]
  cases UsesFormatMember P T <;> cases HasFormatProvider P T <;>
    cases HasStreamOperator P T <;> rfl

/-- C2: for every program and type, exactly one of UsesFormatMember,
UsesFormatProvider, UsesStreamOperator, uses_missing_provider is true; the
call has exactly one candidate overload, it is the one whose predicate is
true, and overload resolution selects it (it is never ambiguous and never
without a match). -/
theorem C2_exactly_one_classification {Val : Type} (P : Program Val) (T : CppType) :
    [UsesFormatMember P T, UsesFormatProvider P T, UsesStreamOperator P T,
      uses_missing_provider P T].count true = 1 ∧
    (BuildFormatAdapter.candidates P T).length = 1 ∧
    ∃ o, BuildFormatAdapter.candidates P T = [o] ∧
      BuildFormatAdapter.select P T = Except.ok o ∧
      ∀ o2, Overload.enabled P T o2 = true ↔ o2 = o := by
  obtain ⟨h1, h2, h3⟩ := resolver_eq P T
  rw [select_eq, candidates_eq, h1, h2, h3]
  cases ha : UsesFormatMember P T <;> cases hp : HasFormatProvider P T <;>
    cases hs : HasStreamOperator P T <;>
    refine ⟨by decide, by simp, _, rfl, rfl, ?_⟩ <;>
    intro o2 <;> cases o2 <;> simp [Overload.enabled, h1, h2, h3, ha, hp, hs]

/-- The call for a type that is already an adapter: the first overload's body
runs. -/
theorem build_member {Val : Type} (P : Program Val) (T : CppType) (σ : Store Val) (item : Nat)
    (ha : UsesFormatMember P T = true) :
    BuildFormatAdapter P T σ item = Overload.body P T σ item Overload.formatMember := by
  simp [BuildFormatAdapter, select_eq, ha, Overload.returnType, ReturnType.isComplete]

/-- The call for a type that is already an adapter and can be returned. -/
theorem build_member_ok {Val : Type} (P : Program Val) (T : CppType) (σ : Store Val)
    (item : Nat) (ha : UsesFormatMember P T = true) (hc : forwardConstructible P T = true) :
    BuildFormatAdapter P T σ item = Except.ok (Adapter.self T (forwardInit T σ item)) := by
  rw [build_member P T σ item ha]
  simp [Overload.body, hc]

/-- The call for a type that is not an adapter and has a provider. -/
theorem build_provider {Val : Type} (P : Program Val) (T : CppType) (σ : Store Val) (item : Nat)
    (ha : UsesFormatMember P T = false) (hp : HasFormatProvider P T = true) :
    BuildFormatAdapter P T σ item =
      Except.ok (Adapter.provider (ProviderFormatAdapter.construct T σ item)) := by
  simp [BuildFormatAdapter, select_eq, ha, hp, Overload.returnType, ReturnType.isComplete,
    Overload.body]

/-- The call for a type whose only capability is the stream operator. -/
theorem build_stream {Val : Type} (P : Program Val) (T : CppType) (σ : Store Val) (item : Nat)
    (ha : UsesFormatMember P T = false) (hp : HasFormatProvider P T = false)
    (hs : HasStreamOperator P T = true) :
    BuildFormatAdapter P T σ item =
      if std.is_same Error (std.remove_cv T) then
        Except.error (BuildError.staticAssert errorByValueMessage)
      else Except.ok (Adapter.streamOperator (StreamOperatorFormatAdapter.construct T σ item)) := by
  cases he : std.is_same Error (std.remove_cv T) <;>
  simp [BuildFormatAdapter, select_eq, ha, hp, hs, he, Overload.returnType,
    ReturnType.isComplete, Overload.body]

/-- The call for a type with none of the three capabilities. -/
theorem build_missing {Val : Type} (P : Program Val) (T : CppType) (σ : Store Val) (item : Nat)
    (ha : UsesFormatMember P T = false) (hp : HasFormatProvider P T = false)
    (hs : HasStreamOperator P T = false) :
    BuildFormatAdapter P T σ item =
      Except.error (BuildError.incompleteType (ReturnType.missingAdapter T)) := by
  simp [BuildFormatAdapter, select_eq, ha, hp, hs, Overload.returnType, ReturnType.isComplete]

/-- What a forwarded item denotes in the store it was taken from. -/
theorem forwardInit_read {Val : Type} (T : CppType) (σ : Store Val) (item : Nat) :
    (forwardInit T σ item).read σ = σ item := by
  unfold forwardInit
  cases T.ref <;> rfl

/-- C3, as stated, fails in three ways.  `FormatAdapterImpl` passed by value is
an adapter type, yet the call is rejected: an abstract class cannot be
returned.  `const Banner &` is an adapter type and is passed through, yet
`format`, a non-const member, cannot be called on the result.  A `Headline`
object passed as a `Banner` rvalue comes back as a `Banner`, the base part
only, and formatting it runs `Banner::format`, not the object's own
`Headline::format`. -/
theorem C3_counterexample_abstract_const_sliced :
    (UsesFormatMember demoThird FormatAdapterImpl = true ∧
     BuildFormatAdapter demoThird FormatAdapterImpl demoObjects 3 =
       Except.error (BuildError.cannotReturn (ReturnType.self FormatAdapterImpl))) ∧
    (UsesFormatMember demoThird demoBanner.constRef = true ∧
     BuildFormatAdapter demoThird demoBanner.constRef demoObjects 3 =
       Except.ok (Adapter.self demoBanner.constRef (Slot.reference 3)) ∧
     (Adapter.self demoBanner.constRef (Slot.reference 3)).format demoThird demoObjects
       "" "" = none) ∧
    (UsesFormatMember demoThird demoBanner = true ∧
     demoThird.dynamicClass (demoObjects 0) = "Headline" ∧
     BuildFormatAdapter demoThird demoBanner demoObjects 0 =
       Except.ok (Adapter.self demoBanner (Slot.object (demoObjects 0))) ∧
     (Adapter.self demoBanner (Slot.object (demoObjects 0))).format demoThird demoObjects
       "" "" = some "Banner:news" ∧
     demoThird.memberFormat (demoObjects 0) "" "" = "Headline:news") :=
  ⟨⟨by decide, by rfl⟩, ⟨by decide, by rfl, by decide⟩,
   ⟨by decide, by decide, by rfl, by decide, by decide⟩⟩

/-- C3, amended: for every type T that is already an adapter, whatever
HasFormatProvider and HasStreamOperator say, the call selects the first
overload, whose return type is T itself (not ProviderFormatAdapter<T> nor
StreamOperatorFormatAdapter<T>) and whose body is what the call runs.  When a
T can be initialised from the forwarded item (T is a reference type, or a
class that is not abstract and can be constructed from the rvalue), the call
returns the forwarded item.  When moreover the result is the given object or
a complete copy of it (T is a reference type, or the object's most derived
class is T), it denotes the given value, and if T is not cv-qualified
formatting the result is the value's own format(out, options). -/
theorem C3_adapter_passes_through {Val : Type} (P : Program Val) (T : CppType) (σ : Store Val)
    (item : Nat) (out : Sink) (options : String) (ha : UsesFormatMember P T = true) :
    BuildFormatAdapter.select P T = Except.ok Overload.formatMember ∧
    Overload.returnType T Overload.formatMember = ReturnType.self T ∧
    Overload.returnType T Overload.formatMember ≠ ReturnType.providerAdapter T ∧
    Overload.returnType T Overload.formatMember ≠ ReturnType.streamOperatorAdapter T ∧
    BuildFormatAdapter P T σ item = Overload.body P T σ item Overload.formatMember ∧
    (forwardConstructible P T = true →
      BuildFormatAdapter P T σ item = Except.ok (Adapter.self T (forwardInit T σ item)) ∧
      (Adapter.self T (forwardInit T σ item)).type = ReturnType.self T ∧
      ((T.ref ≠ RefKind.none ∨ P.dynamicClass (σ item) = T.name) →
        (forwardInit T σ item).read σ = σ item ∧
        (T.isConst = false → T.isVolatile = false →
          (Adapter.self T (forwardInit T σ item)).format P σ out options =
            some (P.memberFormat (σ item) out options)))) := by
  refine ⟨by simp [select_eq, ha], rfl, ?_, ?_, build_member P T σ item ha, ?_⟩
  · simp [Overload.returnType]
  · simp [Overload.returnType]
  · intro hc
    refine ⟨build_member_ok P T σ item ha hc, rfl, ?_⟩
    intro hdyn
    refine ⟨forwardInit_read T σ item, ?_⟩
    intro hconst hvol
    unfold Adapter.format forwardInit
    cases hr : T.ref
    · have hd : P.dynamicClass (σ item) = T.name := by
        rcases hdyn with h | h
        · exact absurd hr h
        · exact h
      simp [hconst, hvol, Program.memberFormat, hd]
    · simp [hconst, hvol]
    · simp [hconst, hvol]

/-- C3, amended, at the example: `Banner` derives from `FormatAdapterImpl` and
also has a provider and a stream operator; a `Banner` object passed as an
rvalue comes back as a `Banner`, and formatting it runs its own `format`. -/
theorem C3_adapter_passes_through_witness :
    (UsesFormatMember demoProgram demoBanner = true ∧
     HasFormatProvider demoProgram demoBanner = true ∧
     HasStreamOperator demoProgram demoBanner = true ∧
     forwardConstructible demoProgram demoBanner = true ∧
     demoProgram.dynamicClass (demoStore 2) = demoBanner.name) ∧
    BuildFormatAdapter.select demoProgram demoBanner = Except.ok Overload.formatMember ∧
    BuildFormatAdapter demoProgram demoBanner demoStore 2 =
      Except.ok (Adapter.self demoBanner (forwardInit demoBanner demoStore 2)) ∧
    (forwardInit demoBanner demoStore 2).read demoStore = demoStore 2 ∧
    (Adapter.self demoBanner (forwardInit demoBanner demoStore 2)).format demoProgram
      demoStore "" "x" = some (demoProgram.memberFormat (demoStore 2) "" "x") ∧
    demoProgram.memberFormat (demoStore 2) "" "x" = "[hi]" :=
  ⟨⟨by decide, by decide, by decide, by decide, by decide⟩,
   (C3_adapter_passes_through demoProgram demoBanner demoStore 2 "" "x" (by decide)).1,
   ((C3_adapter_passes_through demoProgram demoBanner demoStore 2 "" "x" (by decide)).2.2.2.2.2
     (by decide)).1,
   (((C3_adapter_passes_through demoProgram demoBanner demoStore 2 "" "x" (by decide)).2.2.2.2.2
     (by decide)).2.2 (Or.inr (by decide))).1,
   (((C3_adapter_passes_through demoProgram demoBanner demoStore 2 "" "x" (by decide)).2.2.2.2.2
     (by decide)).2.2 (Or.inr (by decide))).2 rfl rfl,
   by decide⟩

/-- A true `HasFormatProvider` exhibits the public static `format` of the
exact signature in `FormatProvider<decay<T>>`. -/
theorem hasFormatProvider_member {Val : Type} (P : Program Val) (T : CppType)
    (hp : HasFormatProvider P T = true) :
    ∃ f, (FormatProvider P (std.decay T)).format = some f ∧ f.isPublic = true ∧
      f.isStatic = true ∧ f.sig = HasFormatProvider.SignatureFormat T := by
  unfold HasFormatProvider HasFormatProvider.test HasFormatProvider.Decayed at hp
  cases hf : (FormatProvider P (std.decay T)).format with
  | none => simp [hf, SameType, sizeof] at hp
  | some f =>
    cases hpub : f.isPublic <;> cases hst : f.isStatic <;>
      by_cases hsig : f.sig = HasFormatProvider.SignatureFormat T <;>
      simp [hf, SameType, accessible, sizeof, hpub, hst, hsig] at hp ⊢

/-- Decaying `const D &` for a decayed `D` gives `D` back. -/
theorem decay_constRef_decay (T : CppType) : std.decay (std.decay T).constRef = std.decay T := by
  obtain ⟨name, c, v, r, shape⟩ := T
  cases shape <;>
    simp [std.decay, std.remove_cv, std.remove_reference, CppType.constRef, CppType.addConst]

/-- Decaying ignores the reference. -/
theorem decay_remove_reference (T : CppType) :
    std.decay (std.remove_reference T) = std.decay T := by
  obtain ⟨name, c, v, r, shape⟩ := T
  cases shape <;> simp [std.decay, std.remove_cv, std.remove_reference]

/-- A true `HasStreamOperator` exhibits the operator found for the decayed
type, whose result type is `std::ostream &`. -/
theorem hasStreamOperator_op {Val : Type} (P : Program Val) (T : CppType)
    (hs : HasStreamOperator P T = true) :
    ∃ op, P.streamInsert (std.decay T) = some op ∧ op.result = ostreamType.lvalueRef := by
  unfold HasStreamOperator HasStreamOperator.test HasStreamOperator.ConstRefT at hs
  rw [decay_constRef_decay] at hs
  cases hop : P.streamInsert (std.decay T) with
  | none => simp [hop, sizeof] at hs
  | some op =>
    by_cases hres : op.result = ostreamType.lvalueRef
    · exact ⟨op, rfl, hres⟩
    · simp [hop, sizeof, std.is_same, hres] at hs

/-- The assertion's condition holds for `Error` with any cv-qualifiers and no
reference. -/
theorem is_same_error_of_by_value (T : CppType) (hname : T.name = Error.name)
    (hshape : T.shape = Shape.object) (href : T.ref = RefKind.none) :
    std.is_same Error (std.remove_cv T) = true := by
  cases T
  simp only at hname hshape href
  subst hname hshape href
  simp [std.is_same, std.remove_cv, Error, CppType.plain]

/-- C6, as stated, fails in three ways.  `Error` has only the stream operator,
yet for an `Error` passed by value the call is rejected by the static
assertion and no `StreamOperatorFormatAdapter<Error>` is returned.
`volatile Tag &` has only the stream operator, yet `out << m_item` finds no
operator for a volatile `Tag`, the class
`StreamOperatorFormatAdapter<volatile Tag &>` is ill-formed and nothing is
written.  `Lock` has only the stream operator, yet for a `Lock` passed by
value the member `Lock m_item` cannot be initialised from the rvalue, and
again nothing is written. -/
theorem C6_counterexample_error_by_value :
    (UsesFormatMember demoProgram Error = false ∧
     HasFormatProvider demoProgram Error = false ∧
     HasStreamOperator demoProgram Error = true ∧
     BuildFormatAdapter demoProgram Error demoStore 3 =
       Except.error (BuildError.staticAssert errorByValueMessage) ∧
     ¬ ∃ a, BuildFormatAdapter demoProgram Error demoStore 3 =
       Except.ok (Adapter.streamOperator a)) ∧
    (UsesFormatMember demoThird demoVolatileTag.lvalueRef = false ∧
     HasFormatProvider demoThird demoVolatileTag.lvalueRef = false ∧
     HasStreamOperator demoThird demoVolatileTag.lvalueRef = true ∧
     std.is_same Error (std.remove_cv demoVolatileTag.lvalueRef) = false ∧
     insertFor demoThird (std.remove_reference demoVolatileTag.lvalueRef) = none ∧
     (Adapter.streamOperator
       (StreamOperatorFormatAdapter.construct demoVolatileTag.lvalueRef demoObjects 2)).format
       demoThird demoObjects "" "" = none) ∧
    (UsesFormatMember demoThird demoLock = false ∧
     HasFormatProvider demoThird demoLock = false ∧
     HasStreamOperator demoThird demoLock = true ∧
     std.is_same Error (std.remove_cv demoLock) = false ∧
     forwardConstructible demoThird demoLock = false ∧
     (Adapter.streamOperator
       (StreamOperatorFormatAdapter.construct demoLock demoObjects 5)).format
       demoThird demoObjects "" "" = none) := by
  refine ⟨⟨by decide, by decide, by decide, by rfl, ?_⟩,
    ⟨by decide, by decide, by decide, by decide, by rfl, by decide⟩,
    ⟨by decide, by decide, by decide, by decide, by decide, by decide⟩⟩
  rintro ⟨a, h⟩
  rw [show BuildFormatAdapter demoProgram Error demoStore 3 =
    Except.error (BuildError.staticAssert errorByValueMessage) by rfl] at h
  cases h

/-- C6, amended: for every type T whose only capability is the stream
operator, which is not Error passed by value (remove_cv<T> is not Error), of
which a member can be initialised from the forwarded item, and for which
`out << m_item` finds an operator for the lvalue `m_item` of type T, every
item and every two options texts: the call returns the
StreamOperatorFormatAdapter<T> constructed from the item; format writes the
same for both options texts, and as long as the item's object keeps its value
it yields exactly what `out << value` yields with that operator.  The probe
found an operator for a `const decay<T> &` operand, and this is the operator
of `out << m_item` when T without its reference is `const decay<T>`. -/
theorem C6_stream_only_ignores_options {Val : Type} (P : Program Val) (T : CppType)
    (σ : Store Val) (item : Nat) (found : StreamFn Val) (ha : UsesFormatMember P T = false)
    (hp : HasFormatProvider P T = false) (hs : HasStreamOperator P T = true)
    (he : std.is_same Error (std.remove_cv T) = false)
    (hc : forwardConstructible P T = true)
    (hfound : insertFor P (std.remove_reference T) = some found) :
    BuildFormatAdapter P T σ item =
      Except.ok (Adapter.streamOperator (StreamOperatorFormatAdapter.construct T σ item)) ∧
    (∃ op, P.streamInsert (std.decay T) = some op ∧ op.result = ostreamType.lvalueRef ∧
      (std.remove_reference T = (std.decay T).addConst → found = op)) ∧
    ∀ (σ2 : Store Val) (out : Sink) (o1 o2 : String),
      (Adapter.streamOperator (StreamOperatorFormatAdapter.construct T σ item)).format
          P σ2 out o1 =
        (Adapter.streamOperator (StreamOperatorFormatAdapter.construct T σ item)).format
          P σ2 out o2 ∧
      (σ2 item = σ item →
        (Adapter.streamOperator (StreamOperatorFormatAdapter.construct T σ item)).format
            P σ2 out o1 = streamOut P (std.remove_reference T) out (σ item) ∧
        streamOut P (std.remove_reference T) out (σ item) =
          some (found.body out (σ item))) := by
  refine ⟨?_, ?_, ?_⟩
  · rw [build_stream P T σ item ha hp hs, he]
    rfl
  · obtain ⟨op, hop, hres⟩ := hasStreamOperator_op P T hs
    refine ⟨op, hop, hres, ?_⟩
    intro hconst
    have h := hfound
    unfold insertFor at h
    rw [decay_remove_reference] at h
    rw [if_pos hconst, hop] at h
    exact (Option.some.inj h).symm
  · intro σ2 out o1 o2
    refine ⟨rfl, ?_⟩
    intro h2
    simp only [Adapter.format, StreamOperatorFormatAdapter.format,
      StreamOperatorFormatAdapter.construct, streamOut, hfound, hc, if_true]
    unfold forwardInit
    cases T.ref <;> simp [Slot.read, h2]

/-- C6, amended, at the example: `int` has only the stream operator, which
writes "42" for 42; adapting the `int` at location 1 and formatting with
options "anything" into an empty sink yields exactly "42". -/
theorem C6_stream_only_ignores_options_witness :
    (UsesFormatMember demoProgram demoInt = false ∧
     HasFormatProvider demoProgram demoInt = false ∧
     HasStreamOperator demoProgram demoInt = true ∧
     std.is_same Error (std.remove_cv demoInt) = false ∧
     forwardConstructible demoProgram demoInt = true ∧
     insertFor demoProgram (std.remove_reference demoInt) = some demoInsert) ∧
    BuildFormatAdapter demoProgram demoInt demoStore 1 =
      Except.ok (Adapter.streamOperator
        (StreamOperatorFormatAdapter.construct demoInt demoStore 1)) ∧
    (∀ (out : Sink) (o1 o2 : String),
      (Adapter.streamOperator (StreamOperatorFormatAdapter.construct demoInt demoStore 1)).format
          demoProgram demoStore out o1 =
        (Adapter.streamOperator
          (StreamOperatorFormatAdapter.construct demoInt demoStore 1)).format
          demoProgram demoStore out o2) ∧
    demoStore 1 = DemoVal.number 42 ∧
    (Adapter.streamOperator (StreamOperatorFormatAdapter.construct demoInt demoStore 1)).format
      demoProgram demoStore "" "anything" = some "42" :=
  ⟨⟨by decide, by decide, by decide, by decide, by decide, by rfl⟩,
   (C6_stream_only_ignores_options demoProgram demoInt demoStore 1 demoInsert (by decide)
     (by decide) (by decide) (by decide) (by decide) (by rfl)).1,
   fun out o1 o2 =>
     ((C6_stream_only_ignores_options demoProgram demoInt demoStore 1 demoInsert (by decide)
       (by decide) (by decide) (by decide) (by decide) (by rfl)).2.2 demoStore out o1 o2).1,
   by decide, by decide⟩

/-- C8: when T is Error with any cv-qualifiers and no reference (an Error
passed by value) and the stream operator is its only capability, the call
selects the stream overload, the static assertion rejects it with its message,
and no adapter, in particular no StreamOperatorFormatAdapter, is returned. -/
theorem C8_error_by_value_rejected {Val : Type} (P : Program Val) (T : CppType) (σ : Store Val)
    (item : Nat) (hname : T.name = Error.name) (hshape : T.shape = Shape.object)
    (href : T.ref = RefKind.none)
    (ha : UsesFormatMember P T = false) (hp : HasFormatProvider P T = false)
    (hs : HasStreamOperator P T = true) :
    BuildFormatAdapter.select P T = Except.ok Overload.streamOperator ∧
    BuildFormatAdapter P T σ item =
      Except.error (BuildError.staticAssert errorByValueMessage) ∧
    ¬ ∃ a, BuildFormatAdapter P T σ item = Except.ok a := by
  have hb : BuildFormatAdapter P T σ item =
      Except.error (BuildError.staticAssert errorByValueMessage) := by
    rw [build_stream P T σ item ha hp hs, is_same_error_of_by_value T hname hshape href]
    rfl
  refine ⟨by simp [select_eq, ha, hp, hs], hb, ?_⟩
  rintro ⟨a, h⟩
  rw [hb] at h
  cases h

/-- C8 at the example: `Error` has only the stream operator; passing the
`Error` at location 3 by value, as `Error` or as `const volatile Error`, is
rejected by the static assertion. -/
theorem C8_error_by_value_rejected_witness :
    (Error.name = Error.name ∧ Error.shape = Shape.object ∧ Error.ref = RefKind.none ∧
     UsesFormatMember demoProgram Error = false ∧
     HasFormatProvider demoProgram Error = false ∧
     HasStreamOperator demoProgram Error = true) ∧
    (BuildFormatAdapter.select demoProgram Error = Except.ok Overload.streamOperator ∧
     BuildFormatAdapter demoProgram Error demoStore 3 =
       Except.error (BuildError.staticAssert errorByValueMessage) ∧
     ¬ ∃ a, BuildFormatAdapter demoProgram Error demoStore 3 = Except.ok a) ∧
    BuildFormatAdapter demoProgram { Error with isConst := true, isVolatile := true }
      demoStore 3 = Except.error (BuildError.staticAssert errorByValueMessage) :=
  ⟨⟨rfl, rfl, rfl, by decide, by decide, by decide⟩,
   C8_error_by_value_rejected demoProgram Error demoStore 3 rfl rfl rfl (by decide) (by decide)
     (by decide),
   (C8_error_by_value_rejected demoProgram { Error with isConst := true, isVolatile := true }
     demoStore 3 rfl rfl rfl (by decide) (by decide) (by decide)).2.1⟩

/-- C9, as stated, fails: `FormatProvider<Vault>` has a static member function
`format` whose signature is exactly
void(const Vault &, std::ostream &, std::string_view), yet the probe is false:
the member is private, and `&U::format` at line 84 is access-checked. -/
theorem C9_counterexample_private_format :
    (∃ f, (FormatProvider demoThird (std.decay demoVault)).format = some f ∧
      f.isStatic = true ∧
      f.sig = { ret := voidType,
                params := [(std.decay demoVault).constRef, ostreamType.lvalueRef,
                  stringViewType] } ∧
      f.isPublic = false) ∧
    HasFormatProvider demoThird demoVault = false :=
  ⟨⟨demoObjFormat demoVault false, by rfl, by rfl, by rfl, by rfl⟩, by decide⟩

/-- C9, amended: for every program and type T, HasFormatProvider<T>::value is
true if and only if FormatProvider<decay<T>> has an accessible (public) static
member function format whose signature is exactly
void(const decay<T> &, std::ostream &, std::string_view); the probe is a total
boolean: it is false when FormatProvider<decay<T>> is the empty primary
template (no specialisation), when it has no format member, and when its
format member is private, is not static or has any other signature. -/
theorem C9_hasFormatProvider_exact_signature {Val : Type} (P : Program Val) (T : CppType) :
    (HasFormatProvider P T = true ↔
      ∃ f, (FormatProvider P (std.decay T)).format = some f ∧ f.isPublic = true ∧
        f.isStatic = true ∧
        f.sig = { ret := voidType,
                  params := [(std.decay T).constRef, ostreamType.lvalueRef, stringViewType] }) ∧
    (HasFormatProvider P T = false ↔
      ¬ ∃ f, (FormatProvider P (std.decay T)).format = some f ∧ f.isPublic = true ∧
        f.isStatic = true ∧
        f.sig = { ret := voidType,
                  params := [(std.decay T).constRef, ostreamType.lvalueRef, stringViewType] }) ∧
    (P.specialisation (std.decay T) = none → HasFormatProvider P T = false) ∧
    ((FormatProvider P (std.decay T)).format = none → HasFormatProvider P T = false) ∧
    (∀ f, (FormatProvider P (std.decay T)).format = some f →
      (f.isPublic = false ∨ f.isStatic = false ∨
        f.sig ≠ { ret := voidType,
                  params := [(std.decay T).constRef, ostreamType.lvalueRef,
                    stringViewType] }) →
      HasFormatProvider P T = false) := by
  have key : HasFormatProvider P T = true ↔
      ∃ f, (FormatProvider P (std.decay T)).format = some f ∧ f.isPublic = true ∧
        f.isStatic = true ∧
        f.sig = { ret := voidType,
                  params := [(std.decay T).constRef, ostreamType.lvalueRef, stringViewType] } := by
    constructor
    · exact hasFormatProvider_member P T
    · rintro ⟨f, hf, hpub, hst, hsig⟩
      simp [HasFormatProvider, HasFormatProvider.test, HasFormatProvider.Decayed, hf, SameType,
        accessible, hpub, hst, hsig, HasFormatProvider.SignatureFormat, sizeof]
  have hfalse : ∀ b : Bool, (b = false ↔ ¬ b = true) := by
    intro b
    cases b <;> simp
  refine ⟨key, ?_, ?_, ?_, ?_⟩
  · rw [← key]
    exact hfalse _
  · intro hnone
    rw [hfalse, key]
    rintro ⟨f, hf, _⟩
    simp [FormatProvider, hnone, FormatProvider.primary] at hf
  · intro hnone
    rw [hfalse, key]
    rintro ⟨f, hf, _⟩
    rw [hnone] at hf
    cases hf
  · intro f hf hbad
    rw [hfalse, key]
    rintro ⟨g, hg, hpub, hst, hsig⟩
    rw [hf] at hg
    cases hg
    rcases hbad with h | h | h
    · rw [hpub] at h
      cases h
    · rw [hst] at h
      cases h
    · exact h hsig

/-- C9, amended, at the examples: the probe is true for `Point`, `Point &` and
`const Point &`, whose provider has the exact signature and is public; false
for `Celsius`, whose `format` takes the item by value; false for `Blob`, left
with the empty primary template; false for `Vault`, whose `format` is
private. -/
theorem C9_hasFormatProvider_exact_signature_witness :
    HasFormatProvider demoProgram demoPoint = true ∧
    HasFormatProvider demoProgram demoPoint.lvalueRef = true ∧
    HasFormatProvider demoProgram demoPoint.constRef = true ∧
    HasFormatProvider demoProgram demoCelsius = false ∧
    HasFormatProvider demoProgram demoBlob = false ∧
    HasFormatProvider demoThird demoVault = false :=
  ⟨(C9_hasFormatProvider_exact_signature demoProgram demoPoint).1.mpr
     ⟨demoExactFormat demoPoint, by rfl, by rfl, by rfl, by rfl⟩,
   (C9_hasFormatProvider_exact_signature demoProgram demoPoint.lvalueRef).1.mpr
     ⟨demoExactFormat demoPoint, by rfl, by rfl, by rfl, by rfl⟩,
   (C9_hasFormatProvider_exact_signature demoProgram demoPoint.constRef).1.mpr
     ⟨demoExactFormat demoPoint, by rfl, by rfl, by rfl, by rfl⟩,
   (C9_hasFormatProvider_exact_signature demoProgram demoCelsius).2.2.2.2 demoByValueFormat
     (by rfl) (Or.inr (Or.inr (by decide))),
   (C9_hasFormatProvider_exact_signature demoProgram demoBlob).2.2.1 (by rfl),
   (C9_hasFormatProvider_exact_signature demoThird demoVault).2.2.2.2
     (demoObjFormat demoVault false) (by rfl) (Or.inl rfl)⟩

/-- C10, as stated, fails for an lvalue: with T = `Point &` the provider
adapter's `m_item` has the reference type `Point &` and is bound to the
caller's object at location 0; after the caller assigns `Point{5, 6}` to that
object, format writes "(5,6)", not the "(1,2)" of construction time.  The same
holds for the stream adapter built from an `int &`. -/
theorem C10_counterexample_lvalue_is_referenced :
    demoPoint.lvalueRef.ref = RefKind.lvalue ∧
    BuildFormatAdapter demoProgram demoPoint.lvalueRef demoStore 0 =
      Except.ok (Adapter.provider { T := demoPoint.lvalueRef, m_item := Slot.reference 0 }) ∧
    (Adapter.provider { T := demoPoint.lvalueRef, m_item := Slot.reference 0 }).format
      demoProgram demoStore "" "" = some "(1,2)" ∧
    (Adapter.provider { T := demoPoint.lvalueRef, m_item := Slot.reference 0 }).format
      demoProgram (demoStore.assign 0 (DemoVal.point 5 6)) "" "" = some "(5,6)" ∧
    BuildFormatAdapter demoProgram demoInt.lvalueRef demoStore 1 =
      Except.ok (Adapter.streamOperator { T := demoInt.lvalueRef, m_item := Slot.reference 1 }) ∧
    (Adapter.streamOperator { T := demoInt.lvalueRef, m_item := Slot.reference 1 }).format
      demoProgram demoStore "" "" = some "42" ∧
    (Adapter.streamOperator { T := demoInt.lvalueRef, m_item := Slot.reference 1 }).format
      demoProgram (demoStore.assign 1 (DemoVal.number 43)) "" "" = some "43" :=
  ⟨by rfl, by rfl, by decide, by decide, by rfl, by decide, by decide⟩

/-- The provider or stream adapter a successful call returns is the one
constructed from the item. -/
theorem build_wrapped {Val : Type} (P : Program Val) (T : CppType) (σ : Store Val) (item : Nat)
    (a : Adapter Val) (hb : BuildFormatAdapter P T σ item = Except.ok a)
    (hk : a.type = ReturnType.providerAdapter T ∨ a.type = ReturnType.streamOperatorAdapter T) :
    a = Adapter.provider { T := T, m_item := forwardInit T σ item } ∨
    a = Adapter.streamOperator { T := T, m_item := forwardInit T σ item } := by
  cases ha : UsesFormatMember P T
  · cases hp : HasFormatProvider P T
    · cases hs : HasStreamOperator P T
      · rw [build_missing P T σ item ha hp hs] at hb
        cases hb
      · rw [build_stream P T σ item ha hp hs] at hb
        split at hb
        · cases hb
        · cases hb
          exact Or.inr rfl
    · rw [build_provider P T σ item ha hp] at hb
      cases hb
      exact Or.inl rfl
  · rw [build_member P T σ item ha] at hb
    cases hc : forwardConstructible P T
    · simp [Overload.body, hc] at hb
    · simp only [Overload.body, hc, if_true] at hb
      cases hb
      simp [Adapter.type] at hk

/-- C10, amended: for every successful call that returns a custom-formatter
or stream-backed adapter: when the value was passed as an rvalue (T is not a
reference type), m_item is an object of the adapter holding the value of
construction time, and format renders the same whatever the caller's store
holds afterwards; when it was passed as an lvalue (T is a reference type),
m_item is a reference bound to the caller's object, and what format renders
depends on the store only through that object's current value. -/
theorem C10_item_owned_or_referenced {Val : Type} (P : Program Val) (T : CppType)
    (σ : Store Val) (item : Nat) (a : Adapter Val)
    (hb : BuildFormatAdapter P T σ item = Except.ok a)
    (hk : a.type = ReturnType.providerAdapter T ∨ a.type = ReturnType.streamOperatorAdapter T) :
    (T.ref = RefKind.none →
      (a = Adapter.provider { T := T, m_item := Slot.object (σ item) } ∨
        a = Adapter.streamOperator { T := T, m_item := Slot.object (σ item) }) ∧
      ∀ (σ2 : Store Val) (out : Sink) (options : String),
        a.format P σ2 out options = a.format P σ out options) ∧
    (T.ref ≠ RefKind.none →
      (a = Adapter.provider { T := T, m_item := Slot.reference item } ∨
        a = Adapter.streamOperator { T := T, m_item := Slot.reference item }) ∧
      ∀ (σ2 σ3 : Store Val) (out : Sink) (options : String), σ2 item = σ3 item →
        a.format P σ2 out options = a.format P σ3 out options) := by
  have hw := build_wrapped P T σ item a hb hk
  constructor
  · intro href
    have hf : forwardInit T σ item = Slot.object (σ item) := by simp [forwardInit, href]
    rw [hf] at hw
    refine ⟨hw, ?_⟩
    intro σ2 out options
    rcases hw with h | h <;> subst h <;>
      simp [Adapter.format, ProviderFormatAdapter.format, StreamOperatorFormatAdapter.format,
        Slot.read]
  · intro href
    have hf : forwardInit T σ item = Slot.reference item := by
      unfold forwardInit
      cases hr : T.ref
      · exact absurd hr href
      · rfl
      · rfl
    rw [hf] at hw
    refine ⟨hw, ?_⟩
    intro σ2 σ3 out options h23
    rcases hw with h | h <;> subst h <;>
      simp [Adapter.format, ProviderFormatAdapter.format, StreamOperatorFormatAdapter.format,
        Slot.read, h23]

/-- C10, amended, at the example: a `Point` passed as an rvalue is held by
value, so after the caller assigns `Point{5, 6}` to its object format still
writes "(1,2)". -/
theorem C10_item_owned_or_referenced_witness :
    (BuildFormatAdapter demoProgram demoPoint demoStore 0 =
       Except.ok (Adapter.provider { T := demoPoint, m_item := Slot.object (DemoVal.point 1 2) }) ∧
     demoPoint.ref = RefKind.none) ∧
    (∀ (σ2 : Store DemoVal) (out : Sink) (options : String),
      (Adapter.provider { T := demoPoint, m_item := Slot.object (DemoVal.point 1 2) }).format
          demoProgram σ2 out options =
        (Adapter.provider { T := demoPoint, m_item := Slot.object (DemoVal.point 1 2) }).format
          demoProgram demoStore out options) ∧
    (Adapter.provider { T := demoPoint, m_item := Slot.object (DemoVal.point 1 2) }).format
      demoProgram (demoStore.assign 0 (DemoVal.point 5 6)) "" "" = some "(1,2)" :=
  ⟨⟨by rfl, rfl⟩,
   ((C10_item_owned_or_referenced demoProgram demoPoint demoStore 0
      (Adapter.provider { T := demoPoint, m_item := Slot.object (DemoVal.point 1 2) })
      (by rfl) (Or.inl rfl)).1 rfl).2,
   by decide⟩

/-! ### Class derivation -/

/-- The search finds only real derivations. -/
theorem derivedFrom_of_derivesFrom (classes : List ClassDecl) (base : String) (n : Nat) :
    ∀ derived, derivesFrom classes n base derived = true → DerivedFrom classes base derived := by
  induction n with
  | zero => intro derived h; simp [derivesFrom] at h
  | succ n ih =>
    intro derived h
    rw [derivesFrom] at h
    cases hf : classes.find? (fun c => c.name == derived) with
    | none => simp [hf] at h
    | some c =>
      simp only [hf, List.any_eq_true, Bool.or_eq_true, beq_iff_eq] at h
      obtain ⟨b, hb, hbase | hrec⟩ := h
      · exact DerivedFrom.direct c hf (hbase ▸ hb)
      · exact DerivedFrom.indirect c b hf hb (ih b hrec)

/-- A derivation is a chain of direct-base steps. -/
theorem basePath_of_derivedFrom (classes : List ClassDecl) (base derived : String)
    (h : DerivedFrom classes base derived) : ∃ l, BasePath classes base derived l := by
  induction h with
  | direct c hf hb => exact ⟨_, BasePath.direct c hf hb⟩
  | indirect c b hf hb _ ih =>
    obtain ⟨l, hl⟩ := ih
    exact ⟨_, BasePath.step c b hf hb hl⟩

/-- The search follows any chain its fuel covers. -/
theorem derivesFrom_of_basePath (classes : List ClassDecl) (base derived : String)
    (l : List String) (h : BasePath classes base derived l) :
    ∀ n, l.length ≤ n → derivesFrom classes n base derived = true := by
  induction h with
  | direct c hf hb =>
    intro n hn
    cases n with
    | zero => simp at hn
    | succ n =>
      rw [derivesFrom]
      simp only [hf, List.any_eq_true, Bool.or_eq_true, beq_iff_eq]
      exact ⟨base, hb, Or.inl rfl⟩
  | step c b hf hb _ ih =>
    intro n hn
    cases n with
    | zero => simp at hn
    | succ n =>
      rw [derivesFrom]
      simp only [hf, List.any_eq_true, Bool.or_eq_true, beq_iff_eq]
      exact ⟨b, hb, Or.inr (ih n (by simpa using hn))⟩

/-- From any class a chain leaves from, a final part of the chain leads to the
base. -/
theorem basePath_suffix (classes : List ClassDecl) (base derived : String) (l : List String)
    (h : BasePath classes base derived l) :
    ∀ x, x ∈ l → ∃ l2, BasePath classes base x l2 ∧ l2 <:+ l := by
  induction h with
  | direct c hf hb =>
    intro x hx
    simp only [List.mem_singleton] at hx
    subst hx
    exact ⟨_, BasePath.direct c hf hb, List.suffix_refl _⟩
  | @step d l c b hf hb hp ih =>
    intro x hx
    rcases List.mem_cons.mp hx with hxd | hxl
    · subst hxd
      exact ⟨_, BasePath.step c b hf hb hp, List.suffix_refl _⟩
    · obtain ⟨l2, hl2, hsuf⟩ := ih x hxl
      exact ⟨l2, hl2, hsuf.trans (List.suffix_cons d l)⟩

/-- A chain can be cut down to one that leaves from no class twice. -/
theorem basePath_nodup (classes : List ClassDecl) (base derived : String) (l : List String)
    (h : BasePath classes base derived l) :
    ∃ l2, BasePath classes base derived l2 ∧ l2.Nodup := by
  induction h with
  | direct c hf hb => exact ⟨_, BasePath.direct c hf hb, List.nodup_singleton _⟩
  | @step d l c b hf hb _ ih =>
    obtain ⟨l2, hl2, hnd⟩ := ih
    by_cases hmem : d ∈ l2
    · obtain ⟨l3, hl3, hsuf⟩ := basePath_suffix classes base b l2 hl2 d hmem
      exact ⟨l3, hl3, hnd.sublist hsuf.sublist⟩
    · exact ⟨d :: l2, BasePath.step c b hf hb hl2, List.nodup_cons.mpr ⟨hmem, hnd⟩⟩

/-- Every class a chain leaves from is declared. -/
theorem basePath_declared (classes : List ClassDecl) (base derived : String) (l : List String)
    (h : BasePath classes base derived l) :
    ∀ x, x ∈ l → x ∈ classes.map (fun c => c.name) := by
  have found : ∀ (d : String) (c : ClassDecl),
      classes.find? (fun c => c.name == d) = some c → d ∈ classes.map (fun c => c.name) := by
    intro d c hf
    have hname : c.name = d := by simpa using List.find?_some hf
    exact List.mem_map.mpr ⟨c, List.mem_of_find?_eq_some hf, hname⟩
  induction h with
  | direct c hf _ =>
    intro x hx
    simp only [List.mem_singleton] at hx
    subst hx
    exact found _ c hf
  | step c b hf _ _ ih =>
    intro x hx
    rcases List.mem_cons.mp hx with hxd | hxl
    · subst hxd
      exact found _ c hf
    · exact ih x hxl

/-- With as much fuel as there are classes the search decides derivation. -/
theorem derivesFrom_iff (classes : List ClassDecl) (base derived : String) :
    derivesFrom classes classes.length base derived = true ↔
      DerivedFrom classes base derived := by
  constructor
  · exact derivedFrom_of_derivesFrom classes base classes.length derived
  · intro h
    obtain ⟨l, hl⟩ := basePath_of_derivedFrom classes base derived h
    obtain ⟨l2, hl2, hnd⟩ := basePath_nodup classes base derived l hl
    have hsub : l2 ⊆ classes.map (fun c => c.name) :=
      fun x hx => basePath_declared classes base derived l2 hl2 x hx
    have hlen : l2.length ≤ classes.length := by
      simpa using (hnd.subperm hsub).length_le
    exact derivesFrom_of_basePath classes base derived l2 hl2 classes.length hlen

/-- A derived class is a declared class. -/
theorem derivedFrom_declared (classes : List ClassDecl) (base derived : String)
    (h : DerivedFrom classes base derived) :
    classes.any (fun c => c.name == derived) = true := by
  have found : ∀ c : ClassDecl, classes.find? (fun c => c.name == derived) = some c →
      classes.any (fun c => c.name == derived) = true := by
    intro c hf
    have hp := List.find?_some hf
    exact List.any_eq_true.mpr ⟨c, List.mem_of_find?_eq_some hf, hp⟩
  cases h with
  | direct c hf _ => exact found c hf
  | indirect c b hf _ _ => exact found c hf

/-- C11: for every program and type T, UsesFormatMember<T>::value is true if
and only if T with any reference (and any cv-qualifier) stripped is
FormatAdapterImpl or a class derived from it, directly or through other
classes; the value is the same for T and for T without its reference; it is
false for every other type whatever its provider and stream operator, in
particular for a type that is not a class, such as a fundamental type, an
array or a pointer. -/
theorem C11_usesFormatMember_iff_is_adapter {Val : Type} (P : Program Val) (T : CppType) :
    (UsesFormatMember P T = true ↔
      (T.shape = Shape.object ∧
        (T.name = FormatAdapterImpl.name ∨
          DerivedFrom P.allClasses FormatAdapterImpl.name T.name))) ∧
    UsesFormatMember P T = UsesFormatMember P (std.remove_reference T) ∧
    (¬ (T.name = FormatAdapterImpl.name ∨
        DerivedFrom P.allClasses FormatAdapterImpl.name T.name) →
      UsesFormatMember P T = false) ∧
    ((∀ c ∈ P.allClasses, c.name ≠ T.name) → UsesFormatMember P T = false) ∧
    (T.shape ≠ Shape.object → UsesFormatMember P T = false) := by
  have hbase : P.allClasses.any (fun c => c.name == FormatAdapterImpl.name) = true := by
    simp [Program.allClasses, headerClasses]
  have hname : (std.remove_reference T).name = T.name := rfl
  have hshape : (std.remove_reference T).shape = T.shape := rfl
  have hiff : UsesFormatMember P T = true ↔
      (T.shape = Shape.object ∧
        (T.name = FormatAdapterImpl.name ∨
          DerivedFrom P.allClasses FormatAdapterImpl.name T.name)) := by
    have hdef : UsesFormatMember P T =
        (decide (T.shape = Shape.object) &&
          P.allClasses.any (fun c => c.name == T.name) &&
          (FormatAdapterImpl.name == T.name ||
            derivesFrom P.allClasses P.allClasses.length FormatAdapterImpl.name T.name)) := by
      unfold UsesFormatMember std.is_base_of
      rw [hname, hshape, hbase]
      have r1 : decide (FormatAdapterImpl.ref = RefKind.none) = true := rfl
      have r2 : decide ((std.remove_reference T).ref = RefKind.none) = true := rfl
      have r3 : decide (FormatAdapterImpl.shape = Shape.object) = true := rfl
      rw [r1, r2, r3]
      simp only [Bool.and_true, Bool.true_and]
    rw [hdef]
    constructor
    · intro h
      simp only [Bool.and_eq_true, Bool.or_eq_true, beq_iff_eq, decide_eq_true_eq] at h
      refine ⟨h.1.1, ?_⟩
      rcases h.2 with h1 | h2
      · exact Or.inl h1.symm
      · exact Or.inr ((derivesFrom_iff _ _ _).mp h2)
    · rintro ⟨hobj, h⟩
      have hdecl : P.allClasses.any (fun c => c.name == T.name) = true := by
        rcases h with h1 | h2
        · rw [h1]
          exact hbase
        · exact derivedFrom_declared _ _ _ h2
      have hlast : (FormatAdapterImpl.name == T.name ||
          derivesFrom P.allClasses P.allClasses.length FormatAdapterImpl.name T.name) = true := by
        rcases h with h1 | h2
        · simp [h1]
        · simp [(derivesFrom_iff _ _ _).mpr h2]
      rw [hdecl, hlast, hobj]
      rfl
  have hfalse : ∀ b : Bool, ¬ b = true → b = false := by
    intro b
    cases b <;> simp
  refine ⟨hiff, rfl, ?_, ?_, ?_⟩
  · intro hn
    exact hfalse _ (fun hu => hn (hiff.mp hu).2)
  · intro hnot
    have hdecl : P.allClasses.any (fun c => c.name == T.name) = false := by
      rw [List.any_eq_false]
      intro c hc
      simpa using hnot c hc
    unfold UsesFormatMember std.is_base_of
    rw [hname, hdecl]
    simp
  · intro hn
    exact hfalse _ (fun hu => hn (hiff.mp hu).1)

/-- C11 at the second example: `Ticker` derives from `FormatAdapterImpl`
through `Headline` and `Banner`, so the predicate is true for `Ticker` and for
`const Ticker &`; it is true for `FormatAdapterImpl` itself; it is false for
the fundamental type `int`, which has a stream operator, and for `Point`,
which has a provider. -/
theorem C11_usesFormatMember_iff_is_adapter_witness :
    UsesFormatMember demoSecond demoTicker = true ∧
    UsesFormatMember demoSecond demoTicker.constRef = true ∧
    UsesFormatMember demoSecond FormatAdapterImpl = true ∧
    (HasStreamOperator demoSecond demoInt = true ∧ UsesFormatMember demoSecond demoInt = false) ∧
    (HasFormatProvider demoSecond demoPoint = true ∧
      UsesFormatMember demoSecond demoPoint = false) :=
  ⟨(C11_usesFormatMember_iff_is_adapter demoSecond demoTicker).1.mpr
     ⟨rfl, Or.inr (DerivedFrom.indirect { name := "Ticker", bases := ["Headline"] } "Headline"
       (by rfl) (by decide)
       (DerivedFrom.indirect { name := "Headline", bases := ["Banner"] } "Banner"
         (by rfl) (by decide)
         (DerivedFrom.direct { name := "Banner", bases := [FormatAdapterImpl.name] }
           (by rfl) (by decide))))⟩,
   by decide,
   (C11_usesFormatMember_iff_is_adapter demoSecond FormatAdapterImpl).1.mpr ⟨rfl, Or.inl rfl⟩,
   ⟨by decide, (C11_usesFormatMember_iff_is_adapter demoSecond demoInt).2.2.2.1 (by decide)⟩,
   ⟨by decide, by decide⟩⟩

/-- C12: for every program and type T, HasStreamOperator<T>::value is true if
and only if `std::ostream & << const decay<T> &` resolves to an operator whose
result type is exactly `std::ostream &`; the operand type the probe tests is
`const decay<T> &`; the probe is a total boolean, false when no operator is
found and false when the operator found returns any other type. -/
theorem C12_hasStreamOperator_iff_returns_stream {Val : Type} (P : Program Val) (T : CppType) :
    HasStreamOperator.ConstRefT T = (std.decay T).constRef ∧
    (HasStreamOperator P T = true ↔
      ∃ op, P.streamInsert (std.decay T) = some op ∧ op.result = ostreamType.lvalueRef) ∧
    (HasStreamOperator P T = false ↔
      ¬ ∃ op, P.streamInsert (std.decay T) = some op ∧ op.result = ostreamType.lvalueRef) ∧
    (P.streamInsert (std.decay T) = none → HasStreamOperator P T = false) ∧
    (∀ op, P.streamInsert (std.decay T) = some op → op.result ≠ ostreamType.lvalueRef →
      HasStreamOperator P T = false) := by
  have key : HasStreamOperator P T = true ↔
      ∃ op, P.streamInsert (std.decay T) = some op ∧ op.result = ostreamType.lvalueRef := by
    constructor
    · exact hasStreamOperator_op P T
    · rintro ⟨op, hop, hres⟩
      unfold HasStreamOperator HasStreamOperator.test HasStreamOperator.ConstRefT
      rw [decay_constRef_decay]
      simp [hop, hres, std.is_same, sizeof]
  refine ⟨rfl, key, ?_, ?_, ?_⟩
  · rw [← key]
    cases HasStreamOperator P T <;> simp
  · intro hnone
    unfold HasStreamOperator HasStreamOperator.test HasStreamOperator.ConstRefT
    rw [decay_constRef_decay]
    simp [hnone, sizeof]
  · intro op hop hres
    unfold HasStreamOperator HasStreamOperator.test HasStreamOperator.ConstRefT
    rw [decay_constRef_decay]
    simp [hop, hres, std.is_same, sizeof]

/-- C12 at the second example: the probe is true for `int` and `const int &`,
whose operator returns `std::ostream &`; false for `Quiet`, whose operator
returns `void`; false for `Point`, for which no operator is found. -/
theorem C12_hasStreamOperator_iff_returns_stream_witness :
    HasStreamOperator demoSecond demoInt = true ∧
    HasStreamOperator demoSecond demoInt.constRef = true ∧
    HasStreamOperator demoSecond demoQuiet = false ∧
    HasStreamOperator demoSecond demoPoint = false :=
  ⟨(C12_hasStreamOperator_iff_returns_stream demoSecond demoInt).2.1.mpr
     ⟨demoInsert, by rfl, by rfl⟩,
   (C12_hasStreamOperator_iff_returns_stream demoSecond demoInt.constRef).2.1.mpr
     ⟨demoInsert, by rfl, by rfl⟩,
   (C12_hasStreamOperator_iff_returns_stream demoSecond demoQuiet).2.2.2.2 demoVoidInsert
     (by rfl) (by decide),
   (C12_hasStreamOperator_iff_returns_stream demoSecond demoPoint).2.2.2.1 (by rfl)⟩

/-- `HasFormatProvider` inspects only the decayed type. -/
theorem hasFormatProvider_congr {Val : Type} (P : Program Val) (T1 T2 : CppType)
    (h : std.decay T1 = std.decay T2) : HasFormatProvider P T1 = HasFormatProvider P T2 := by
  simp only [HasFormatProvider, HasFormatProvider.test, HasFormatProvider.SignatureFormat,
    HasFormatProvider.Decayed, h]

/-- `HasStreamOperator` inspects only the decayed type. -/
theorem hasStreamOperator_congr {Val : Type} (P : Program Val) (T1 T2 : CppType)
    (h : std.decay T1 = std.decay T2) : HasStreamOperator P T1 = HasStreamOperator P T2 := by
  simp only [HasStreamOperator, HasStreamOperator.ConstRefT, h]

/-- Two types with the same decayed type name the same type and are both
class-shaped or both not, so `UsesFormatMember` agrees on them. -/
theorem usesFormatMember_of_decay {Val : Type} (P : Program Val) (T1 T2 : CppType)
    (h : std.decay T1 = std.decay T2) : UsesFormatMember P T1 = UsesFormatMember P T2 := by
  have hn : T1.name = T2.name := by
    have := congrArg CppType.name h
    obtain ⟨n1, c1, v1, r1, s1⟩ := T1
    obtain ⟨n2, c2, v2, r2, s2⟩ := T2
    cases s1 <;> cases s2 <;>
      simpa [std.decay, std.remove_cv, std.remove_reference] using this
  have hs : (T1.shape = Shape.object ↔ T2.shape = Shape.object) := by
    have := congrArg CppType.shape h
    obtain ⟨n1, c1, v1, r1, s1⟩ := T1
    obtain ⟨n2, c2, v2, r2, s2⟩ := T2
    cases s1 <;> cases s2 <;>
      simp [std.decay, std.remove_cv, std.remove_reference] at this ⊢
  unfold UsesFormatMember std.is_base_of
  have e1 : (std.remove_reference T1).name = T1.name := rfl
  have e2 : (std.remove_reference T2).name = T2.name := rfl
  have s1 : (std.remove_reference T1).shape = T1.shape := rfl
  have s2 : (std.remove_reference T2).shape = T2.shape := rfl
  have r1 : (std.remove_reference T1).ref = RefKind.none := rfl
  have r2 : (std.remove_reference T2).ref = RefKind.none := rfl
  have hd : decide (T1.shape = Shape.object) = decide (T2.shape = Shape.object) := by
    by_cases h1 : T1.shape = Shape.object
    · simp [h1, hs.mp h1]
    · have h2 : ¬ T2.shape = Shape.object := fun h2 => h1 (hs.mpr h2)
      simp [h1, h2]
  rw [e1, e2, s1, s2, r1, r2, hn, hd]

/-- The three facts, the four resolver predicates and the selected overload
agree on two types with the same decayed type. -/
theorem classification_congr {Val : Type} (P : Program Val) (T1 T2 : CppType)
    (h : std.decay T1 = std.decay T2) :
    HasFormatProvider P T1 = HasFormatProvider P T2 ∧
    HasStreamOperator P T1 = HasStreamOperator P T2 ∧
    UsesFormatMember P T1 = UsesFormatMember P T2 ∧
    UsesFormatProvider P T1 = UsesFormatProvider P T2 ∧
    UsesStreamOperator P T1 = UsesStreamOperator P T2 ∧
    uses_missing_provider P T1 = uses_missing_provider P T2 ∧
    BuildFormatAdapter.select P T1 = BuildFormatAdapter.select P T2 := by
  have ha := usesFormatMember_of_decay P T1 T2 h
  have hp := hasFormatProvider_congr P T1 T2 h
  have hs := hasStreamOperator_congr P T1 T2 h
  simp only [select_eq, UsesFormatProvider, UsesStreamOperator, uses_missing_provider, ha, hp, hs,
    and_self]

/-- The types `U &` and `U &&` decay to what `U` decays to, and so does
`const U &` unless `U` is an array. -/
theorem decay_references (U : CppType) :
    std.decay U.lvalueRef = std.decay U ∧ std.decay U.rvalueRef = std.decay U ∧
    ((∀ n e, U.shape ≠ Shape.array n e) → std.decay U.constRef = std.decay U) := by
  obtain ⟨name, c, v, r, shape⟩ := U
  refine ⟨?_, ?_, ?_⟩
  · cases shape <;> simp [std.decay, std.remove_cv, std.remove_reference, CppType.lvalueRef]
  · cases r <;> cases shape <;>
      simp [std.decay, std.remove_cv, std.remove_reference, CppType.rvalueRef]
  · intro hna
    cases r <;> cases shape <;>
      simp [std.decay, std.remove_cv, std.remove_reference, CppType.constRef,
        CppType.addConst] at hna ⊢

/-- C13, as stated, fails for an array type: with U = `char[6]`, a translation
unit that has a provider for `const char *` only, and stream operators for
both `char *` and `const char *`, classifies `U &` as stream operator and
`const U &` as custom formatter, because decay<U &> is `char *` and
decay<const U &> is `const char *`. -/
theorem C13_counterexample_array_const_reference :
    std.decay demoCharArray.lvalueRef = demoCharPtr ∧
    std.decay demoCharArray.constRef = demoConstCharPtr ∧
    HasFormatProvider demoThird demoCharArray.lvalueRef = false ∧
    HasFormatProvider demoThird demoCharArray.constRef = true ∧
    BuildFormatAdapter.select demoThird demoCharArray.lvalueRef =
      Except.ok Overload.streamOperator ∧
    BuildFormatAdapter.select demoThird demoCharArray.constRef =
      Except.ok Overload.formatProvider ∧
    BuildFormatAdapter.select demoThird demoCharArray.lvalueRef ≠
      BuildFormatAdapter.select demoThird demoCharArray.constRef := by
  refine ⟨by decide, by decide, by decide, by decide, by rfl, by rfl, ?_⟩
  rw [show BuildFormatAdapter.select demoThird demoCharArray.lvalueRef =
      Except.ok Overload.streamOperator by rfl,
    show BuildFormatAdapter.select demoThird demoCharArray.constRef =
      Except.ok Overload.formatProvider by rfl]
  intro h
  cases h

/-- C13, amended: for every program, the three facts, the four resolver
predicates and the selected overload depend on T only through decay<T>.
For every type U they are the same for U, U & and U &&; and for every type U
that is not an array type they are the same for const U & too.  So an object
that is not an array selects the same adapter variant whether it is passed as
lvalue, const lvalue or rvalue. -/
theorem C13_classification_ignores_reference {Val : Type} (P : Program Val) (U : CppType) :
    (∀ T1 T2 : CppType, std.decay T1 = std.decay T2 →
      HasFormatProvider P T1 = HasFormatProvider P T2 ∧
      HasStreamOperator P T1 = HasStreamOperator P T2 ∧
      UsesFormatMember P T1 = UsesFormatMember P T2 ∧
      UsesFormatProvider P T1 = UsesFormatProvider P T2 ∧
      UsesStreamOperator P T1 = UsesStreamOperator P T2 ∧
      uses_missing_provider P T1 = uses_missing_provider P T2 ∧
      BuildFormatAdapter.select P T1 = BuildFormatAdapter.select P T2) ∧
    (∀ T ∈ [U.lvalueRef, U.rvalueRef],
      HasFormatProvider P T = HasFormatProvider P U ∧
      HasStreamOperator P T = HasStreamOperator P U ∧
      UsesFormatMember P T = UsesFormatMember P U ∧
      UsesFormatProvider P T = UsesFormatProvider P U ∧
      UsesStreamOperator P T = UsesStreamOperator P U ∧
      uses_missing_provider P T = uses_missing_provider P U ∧
      BuildFormatAdapter.select P T = BuildFormatAdapter.select P U) ∧
    ((∀ n e, U.shape ≠ Shape.array n e) →
      HasFormatProvider P U.constRef = HasFormatProvider P U ∧
      HasStreamOperator P U.constRef = HasStreamOperator P U ∧
      UsesFormatMember P U.constRef = UsesFormatMember P U ∧
      UsesFormatProvider P U.constRef = UsesFormatProvider P U ∧
      UsesStreamOperator P U.constRef = UsesStreamOperator P U ∧
      uses_missing_provider P U.constRef = uses_missing_provider P U ∧
      BuildFormatAdapter.select P U.constRef = BuildFormatAdapter.select P U) := by
  obtain ⟨hl, hr, hc⟩ := decay_references U
  refine ⟨classification_congr P, ?_, fun hna => classification_congr P _ _ (hc hna)⟩
  intro T hT
  simp only [List.mem_cons, List.mem_singleton, List.not_mem_nil, or_false] at hT
  rcases hT with h | h <;> subst h
  · exact classification_congr P _ _ hl
  · exact classification_congr P _ _ hr

/-- C13, amended, at the examples: `Money`, `Money &`, `const Money &` and
`Money &&` all select the provider overload; `Ticker` and `const Ticker &`
both select the pass-through overload. -/
theorem C13_classification_ignores_reference_witness :
    BuildFormatAdapter.select demoProgram demoMoney = Except.ok Overload.formatProvider ∧
    BuildFormatAdapter.select demoProgram demoMoney.lvalueRef =
      Except.ok Overload.formatProvider ∧
    BuildFormatAdapter.select demoProgram demoMoney.constRef =
      Except.ok Overload.formatProvider ∧
    BuildFormatAdapter.select demoProgram demoMoney.rvalueRef =
      Except.ok Overload.formatProvider ∧
    BuildFormatAdapter.select demoSecond demoTicker.constRef =
      BuildFormatAdapter.select demoSecond demoTicker :=
  ⟨by rfl,
   ((C13_classification_ignores_reference demoProgram demoMoney).2.1 demoMoney.lvalueRef
     (by simp)).2.2.2.2.2.2.trans (by rfl),
   ((C13_classification_ignores_reference demoProgram demoMoney).2.2
     (by simp [demoMoney, CppType.plain])).2.2.2.2.2.2.trans (by rfl),
   ((C13_classification_ignores_reference demoProgram demoMoney).2.1 demoMoney.rvalueRef
     (by simp)).2.2.2.2.2.2.trans (by rfl),
   ((C13_classification_ignores_reference demoSecond demoTicker).2.2
     (by simp [demoTicker, CppType.plain])).2.2.2.2.2.2⟩

end polar.utils
